import Mathlib

/-!
Shallow embedding of the `stackwiz-mcp` repository (a Python MCP server that
manages docker-compose "stacks", Cloudflare DNS records, configuration
validation and health checks), together with proofs settling the frozen
claims C1–C10 about its specification.

Each definition is translated from the corresponding Python source in
`src/stackwiz_mcp/`; effectful code (filesystem, subprocess, HTTP) is
modelled by passing explicit environment/oracle values and by recording the
performed effects in the returned value.
-/

namespace Stackwiz

/-! ## `slugify` (src/stackwiz_mcp/utils/stack_utils.py, lines 71–73)

`slugify(name) = re.sub(r'[^a-z0-9]+', '-', name.lower()).strip('-')`.

Characters are handled by code point; `str.lower()` is modelled by ASCII
lowercasing (the only case mapping relevant to the `[a-z0-9]` character
class and to the claims). -/

/-- ASCII lowercasing of one character, modelling Python `str.lower()`
(codepoints 65–90 map to 97–122, everything else is untouched). -/
def lowerChar (c : Char) : Char :=
  if 65 ≤ c.toNat ∧ c.toNat ≤ 90 then Char.ofNat (c.toNat + 32) else c

/-- Membership of the regex character class `[a-z0-9]` (codepoints 97–122
and 48–57). -/
def isAllowed (c : Char) : Bool :=
  (97 ≤ c.toNat && c.toNat ≤ 122) || (48 ≤ c.toNat && c.toNat ≤ 57)

/-- `re.sub(r'[^a-z0-9]+', '-', ·)` over a character list: every maximal
run of characters outside `[a-z0-9]` is replaced by a single `'-'`.  The
boolean argument records whether the previous character belonged to such a
run (so that later characters of the same run are dropped). -/
def collapseAux : Bool → List Char → List Char
  | _, [] => []
  | lastSep, c :: cs =>
    if isAllowed c then c :: collapseAux false cs
    else if lastSep then collapseAux true cs
    else '-' :: collapseAux true cs

/-- `·.strip('-')` over a character list: drop leading and trailing `'-'`. -/
def stripDashes (l : List Char) : List Char :=
  ((l.dropWhile (fun c => c == '-')).reverse.dropWhile (fun c => c == '-')).reverse

/-- `slugify` from `stack_utils.py`:
lower-case, collapse `[^a-z0-9]+` runs to `'-'`, strip `'-'` from both ends. -/
def slugify (s : String) : String :=
  ⟨stripDashes (collapseAux false (s.data.map lowerChar))⟩

/-- Characters that can appear in a `slugify` result: the `[a-z0-9]` class
plus the substituted separator `'-'`. -/
def goodChar (c : Char) : Bool :=
  isAllowed c || c == '-'

/-- "No doubled separator": no two adjacent characters of the list are both
`'-'`. -/
def NoDD (l : List Char) : Prop :=
  l.Chain' (fun a b => ¬(a = '-' ∧ b = '-'))

lemma isAllowed_ne_dash {c : Char} (h : isAllowed c = true) : c ≠ '-' := by
  intro h'
  subst h'
  exact absurd h (by decide)

lemma collapseAux_cons_allowed {x : Char} (b : Bool) (xs : List Char)
    (hx : isAllowed x = true) : collapseAux b (x :: xs) = x :: collapseAux false xs := by
  cases b <;> simp [collapseAux, hx]

lemma collapseAux_cons_dis_true {x : Char} (xs : List Char)
    (hx : isAllowed x = false) : collapseAux true (x :: xs) = collapseAux true xs := by
  simp [collapseAux, hx]

lemma collapseAux_cons_dis_false {x : Char} (xs : List Char)
    (hx : isAllowed x = false) : collapseAux false (x :: xs) = '-' :: collapseAux true xs := by
  simp [collapseAux, hx]

lemma lowerChar_of_goodChar {c : Char} (h : goodChar c = true) : lowerChar c = c := by
  rcases Bool.or_eq_true _ _ |>.mp h with h | h
  · simp only [isAllowed, Bool.or_eq_true, Bool.and_eq_true, decide_eq_true_eq] at h
    unfold lowerChar
    rw [if_neg]; omega
  · rw [beq_iff_eq] at h
    subst h; rfl

lemma mem_collapseAux_goodChar :
    ∀ (b : Bool) (l : List Char) (c : Char), c ∈ collapseAux b l → goodChar c = true := by
  intro b l
  induction l generalizing b with
  | nil => intro c hc; simp [collapseAux] at hc
  | cons x xs ih =>
    intro c hc
    rcases hx : isAllowed x with hF | hT
    · cases b with
      | true =>
        rw [collapseAux_cons_dis_true xs hx] at hc
        exact ih true c hc
      | false =>
        rw [collapseAux_cons_dis_false xs hx] at hc
        rcases List.mem_cons.mp hc with rfl | hc
        · rfl
        · exact ih true c hc
    · rw [collapseAux_cons_allowed b xs hx] at hc
      rcases List.mem_cons.mp hc with rfl | hc
      · exact Bool.or_eq_true _ _ |>.mpr (Or.inl hx)
      · exact ih false c hc

/-- In the "previous character was part of a separator run" state, the
collapser never emits a leading `'-'`: the first emitted character is from
`[a-z0-9]`. -/
lemma collapseAux_true_head :
    ∀ (l : List Char) (c : Char) (cs : List Char),
      collapseAux true l = c :: cs → isAllowed c = true := by
  intro l
  induction l with
  | nil => intro c cs h; simp [collapseAux] at h
  | cons x xs ih =>
    intro c cs h
    rcases hx : isAllowed x with hF | hT
    · rw [collapseAux_cons_dis_true xs hx] at h
      exact ih c cs h
    · rw [collapseAux_cons_allowed true xs hx] at h
      cases h
      exact hx

lemma noDD_collapseAux : ∀ (b : Bool) (l : List Char), NoDD (collapseAux b l) := by
  intro b l
  induction l generalizing b with
  | nil => simp [collapseAux, NoDD]
  | cons x xs ih =>
    rcases hx : isAllowed x with hF | hT
    · cases b with
      | true =>
        rw [collapseAux_cons_dis_true xs hx]
        exact ih true
      | false =>
        rw [collapseAux_cons_dis_false xs hx]
        refine List.chain'_cons'.mpr ⟨?_, ih true⟩
        intro y hy
        rintro ⟨-, rfl⟩
        cases hcl : collapseAux true xs with
        | nil => rw [hcl] at hy; simp at hy
        | cons z zs =>
          rw [hcl] at hy
          simp only [List.head?_cons, Option.mem_def, Option.some_inj] at hy
          exact isAllowed_ne_dash (collapseAux_true_head xs z zs hcl) hy
    · rw [collapseAux_cons_allowed b xs hx]
      refine List.chain'_cons'.mpr ⟨?_, ih false⟩
      intro y hy
      rintro ⟨rfl, -⟩
      exact isAllowed_ne_dash hx rfl

/-- Lists made only of slug characters with no doubled separator are fixed
points of the collapser (in state `false` always; in state `true` provided
they do not start with `'-'`). -/
lemma collapseAux_fixed :
    ∀ (l : List Char), (∀ c ∈ l, goodChar c = true) → NoDD l →
      collapseAux false l = l ∧
        (l.head? ≠ some '-' → collapseAux true l = l) := by
  intro l
  induction l with
  | nil => simp [collapseAux]
  | cons x xs ih =>
    intro hgood hdd
    have hxg : goodChar x = true := hgood x (List.mem_cons_self _ _)
    have hxs : ∀ c ∈ xs, goodChar c = true := fun c hc => hgood c (List.mem_cons_of_mem _ hc)
    have hddxs : NoDD xs := (List.chain'_cons'.mp hdd).2
    rcases Bool.or_eq_true _ _ |>.mp hxg with hx | hx
    · constructor
      · rw [collapseAux_cons_allowed false xs hx, (ih hxs hddxs).1]
      · intro _
        rw [collapseAux_cons_allowed true xs hx, (ih hxs hddxs).1]
    · rw [beq_iff_eq] at hx
      subst hx
      have hxsnd : xs.head? ≠ some '-' := by
        intro hh
        cases xs with
        | nil => simp at hh
        | cons y ys =>
          rw [List.head?_cons, Option.some_inj] at hh
          subst hh
          exact (List.chain'_cons.mp hdd).1 ⟨rfl, rfl⟩
      constructor
      · rw [collapseAux_cons_dis_false xs (by decide), (ih hxs hddxs).2 hxsnd]
      · intro hne
        exact ((hne (by simp)).elim)

lemma head?_dropWhile_dash (l : List Char) (c : Char)
    (h : (l.dropWhile (fun c => c == '-')).head? = some c) : c ≠ '-' := by
  induction l with
  | nil => simp [List.dropWhile] at h
  | cons x xs ih =>
    rw [List.dropWhile_cons] at h
    split at h
    · exact ih h
    · next hx =>
      rw [List.head?_cons, Option.some_inj] at h
      subst h
      simpa using hx

lemma mem_stripDashes {l : List Char} {c : Char} (h : c ∈ stripDashes l) : c ∈ l := by
  unfold stripDashes at h
  rw [List.mem_reverse] at h
  have h1 := (List.dropWhile_sublist (l := (l.dropWhile (fun c => c == '-')).reverse)
    (p := fun c => c == '-')).mem h
  rw [List.mem_reverse] at h1
  exact (List.dropWhile_sublist (l := l) (p := fun c => c == '-')).mem h1

lemma noDD_stripDashes {l : List Char} (h : NoDD l) : NoDD (stripDashes l) := by
  unfold stripDashes
  have symm : ∀ {m : List Char}, NoDD m → NoDD m.reverse := by
    intro m hm
    rw [NoDD, List.chain'_reverse]
    exact hm.imp (fun a b hab => by rintro ⟨rfl, rfl⟩; exact hab ⟨rfl, rfl⟩)
  have h1 : NoDD (l.dropWhile (fun c => c == '-')) :=
    h.suffix (List.dropWhile_suffix _)
  have h2 : NoDD ((l.dropWhile (fun c => c == '-')).reverse) := symm h1
  have h3 : NoDD (((l.dropWhile (fun c => c == '-')).reverse).dropWhile (fun c => c == '-')) :=
    h2.suffix (List.dropWhile_suffix _)
  exact symm h3

lemma stripDashes_head? {l : List Char} {c : Char}
    (h : (stripDashes l).head? = some c) : c ≠ '-' := by
  unfold stripDashes at h
  rw [List.head?_reverse] at h
  set A := l.dropWhile (fun c => c == '-') with hA
  set B := A.reverse.dropWhile (fun c => c == '-') with hB
  have hBne : B ≠ [] := by
    intro hnil
    rw [hnil] at h
    simp at h
  obtain ⟨t, ht⟩ := List.dropWhile_suffix (l := A.reverse) (p := fun c => c == '-')
  have hrev : A.reverse.getLast? = some c := by
    rw [← ht, List.getLast?_append_of_ne_nil _ hBne]
    exact h
  rw [List.getLast?_reverse] at hrev
  exact head?_dropWhile_dash l c hrev

lemma stripDashes_getLast? {l : List Char} {c : Char}
    (h : (stripDashes l).getLast? = some c) : c ≠ '-' := by
  unfold stripDashes at h
  rw [List.getLast?_reverse] at h
  exact head?_dropWhile_dash _ c h

/-- Lists not starting and not ending with `'-'` are fixed by `stripDashes`. -/
lemma stripDashes_fixed {l : List Char}
    (h1 : l.head? ≠ some '-') (h2 : l.getLast? ≠ some '-') : stripDashes l = l := by
  have front : ∀ (m : List Char), m.head? ≠ some '-' →
      m.dropWhile (fun c => c == '-') = m := by
    intro m hm
    cases m with
    | nil => rfl
    | cons x xs =>
      rw [List.dropWhile_cons, if_neg]
      simp only [List.head?_cons, ne_eq, Option.some_inj] at hm
      simp [hm]
  unfold stripDashes
  rw [front l h1, front _ (by rw [List.head?_reverse]; exact h2), List.reverse_reverse]

/-- The structural invariant of every `slugify` result: only `[a-z0-9-]`
characters, no doubled `'-'`, and no leading or trailing `'-'`. -/
lemma slugify_props (x : String) :
    (∀ c ∈ (slugify x).data, goodChar c = true) ∧ NoDD (slugify x).data ∧
      (slugify x).data.head? ≠ some '-' ∧ (slugify x).data.getLast? ≠ some '-' := by
  refine ⟨?_, ?_, ?_, ?_⟩
  · intro c hc
    exact mem_collapseAux_goodChar false _ c (mem_stripDashes hc)
  · exact noDD_stripDashes (noDD_collapseAux false _)
  · intro h
    exact stripDashes_head? h rfl
  · intro h
    exact stripDashes_getLast? h rfl

lemma map_lowerChar_of_good {l : List Char} (h : ∀ c ∈ l, goodChar c = true) :
    l.map lowerChar = l :=
  (List.map_congr_left fun c hc => lowerChar_of_goodChar (h c hc)).trans (List.map_id l)

/-- `slugify` is idempotent. -/
lemma slugify_slugify (x : String) : slugify (slugify x) = slugify x := by
  obtain ⟨hg, hdd, hh, hl⟩ := slugify_props x
  show (⟨stripDashes (collapseAux false ((slugify x).data.map lowerChar))⟩ : String) = slugify x
  rw [map_lowerChar_of_good hg, (collapseAux_fixed _ hg hdd).1, stripDashes_fixed hh hl]

lemma collapseAux_allowed_fixed :
    ∀ (u : List Char), (∀ c ∈ u, isAllowed c = true) → ∀ (b : Bool),
      collapseAux b u = u := by
  intro u
  induction u with
  | nil => intro _ b; cases b <;> rfl
  | cons c cs ih =>
    intro h b
    rw [collapseAux_cons_allowed b cs (h c (List.mem_cons_self _ _)),
      ih (fun d hd => h d (List.mem_cons_of_mem _ hd)) false]

lemma collapseAux_append_allowed :
    ∀ (u : List Char), u ≠ [] → (∀ c ∈ u, isAllowed c = true) → ∀ (b : Bool) (v : List Char),
      collapseAux b (u ++ v) = u ++ collapseAux false v := by
  intro u
  induction u with
  | nil => intro h; exact absurd rfl h
  | cons c cs ih =>
    intro _ h b v
    rw [List.cons_append, collapseAux_cons_allowed b _ (h c (List.mem_cons_self _ _))]
    cases cs with
    | nil => rfl
    | cons d ds =>
      rw [ih (by simp) (fun e he => h e (List.mem_cons_of_mem _ he)) false v]
      rfl

lemma collapseAux_true_skip :
    ∀ (r : List Char), (∀ c ∈ r, isAllowed c = false) → ∀ (v : List Char),
      collapseAux true (r ++ v) = collapseAux true v := by
  intro r
  induction r with
  | nil => intro _ v; rfl
  | cons c cs ih =>
    intro h v
    rw [List.cons_append, collapseAux_cons_dis_true _ (h c (List.mem_cons_self _ _)),
      ih (fun d hd => h d (List.mem_cons_of_mem _ hd)) v]

/-- A maximal interior run of characters that are outside `[a-z0-9]` even
after lowercasing, flanked by nonempty all-`[a-z0-9]` context, collapses to
exactly one `'-'`. -/
lemma slugify_run (a r b : String)
    (ha : a.data ≠ []) (hb : b.data ≠ []) (hr : r.data ≠ [])
    (haal : ∀ c ∈ a.data, isAllowed c = true)
    (hbal : ∀ c ∈ b.data, isAllowed c = true)
    (hrd : ∀ c ∈ r.data, isAllowed (lowerChar c) = false) :
    slugify (a ++ r ++ b) = a ++ "-" ++ b := by
  have hdata : (a ++ r ++ b).data = a.data ++ (r.data ++ b.data) := by
    rw [String.data_append, String.data_append, List.append_assoc]
  have hmapa : a.data.map lowerChar = a.data :=
    map_lowerChar_of_good fun c hc => Bool.or_eq_true _ _ |>.mpr (Or.inl (haal c hc))
  have hmapb : b.data.map lowerChar = b.data :=
    map_lowerChar_of_good fun c hc => Bool.or_eq_true _ _ |>.mpr (Or.inl (hbal c hc))
  have hcore : collapseAux false ((a ++ r ++ b).data.map lowerChar) =
      a.data ++ '-' :: b.data := by
    rw [hdata, List.map_append, List.map_append, hmapa, hmapb]
    rw [collapseAux_append_allowed a.data ha haal false]
    congr 1
    cases hmr : r.data.map lowerChar with
    | nil => exact absurd (List.map_eq_nil_iff.mp hmr) hr
    | cons c cs =>
      have hmem : ∀ d ∈ c :: cs, isAllowed d = false := by
        rw [← hmr]
        intro d hd
        obtain ⟨e, he, rfl⟩ := List.mem_map.mp hd
        exact hrd e he
      rw [List.cons_append, collapseAux_cons_dis_false _ (hmem c (List.mem_cons_self _ _))]
      rw [collapseAux_true_skip cs (fun d hd => hmem d (List.mem_cons_of_mem _ hd)) b.data]
      rw [collapseAux_allowed_fixed b.data hbal true]
  show (⟨stripDashes (collapseAux false ((a ++ r ++ b).data.map lowerChar))⟩ : String) = _
  rw [hcore, stripDashes_fixed]
  · apply String.ext
    rw [String.data_append, String.data_append]
    show a.data ++ '-' :: b.data = a.data ++ ['-'] ++ b.data
    rw [List.append_assoc]
    rfl
  · cases ha' : a.data with
    | nil => exact absurd ha' ha
    | cons a0 arest =>
      simp only [ha', List.cons_append, List.head?_cons, ne_eq, Option.some_inj]
      exact isAllowed_ne_dash (haal a0 (by rw [ha']; exact List.mem_cons_self _ _))
  · rw [List.getLast?_append_of_ne_nil _ (by simp)]
    cases hb' : b.data with
    | nil => exact absurd hb' hb
    | cons c rest =>
      rw [List.getLast?_cons_cons]
      intro h
      have hm : '-' ∈ c :: rest :=
        List.mem_of_mem_getLast? (show '-' ∈ (c :: rest).getLast? by rw [h]; rfl)
      exact absurd (hbal '-' (by rw [hb']; exact hm)) (by decide)

/-- C8: `slugify` is idempotent (`slugify (slugify x) = slugify x` for every
string `x`); `slugify "My App!!" = "my-app"`; every maximal run of characters
outside `[a-z0-9]` (after lowercasing) collapses to a single `"-"`; and the
result never starts or ends with `"-"` (leading/trailing separators are
trimmed) nor contains a doubled `"-"`. -/
theorem c8_slugify_algebra :
    (∀ x : String, slugify (slugify x) = slugify x) ∧
    slugify "My App!!" = "my-app" ∧
    (∀ a r b : String, a.data ≠ [] → b.data ≠ [] → r.data ≠ [] →
      (∀ c ∈ a.data, isAllowed c = true) → (∀ c ∈ b.data, isAllowed c = true) →
      (∀ c ∈ r.data, isAllowed (lowerChar c) = false) →
      slugify (a ++ r ++ b) = a ++ "-" ++ b) ∧
    (∀ x : String, NoDD (slugify x).data ∧
      (slugify x).data.head? ≠ some '-' ∧ (slugify x).data.getLast? ≠ some '-') :=
  ⟨slugify_slugify, rfl,
   fun a r b ha hb hr h1 h2 h3 => slugify_run a r b ha hb hr h1 h2 h3,
   fun x => ⟨(slugify_props x).2.1, (slugify_props x).2.2.1, (slugify_props x).2.2.2⟩⟩

/-- Witness for C8: the run-collapse clause applied at a concrete input. -/
theorem c8_slugify_algebra_witness :
    slugify ("my" ++ " !" ++ "app2") = "my" ++ "-" ++ "app2" :=
  c8_slugify_algebra.2.2.1 "my" " !" "app2" (by decide) (by decide) (by decide)
    (by decide) (by decide) (by decide)

end Stackwiz

namespace Stackwiz

/-! ## `get_stack_status` (src/stackwiz_mcp/utils/stack_utils.py, lines 201–235)

`get_container_status` returns a list of container dictionaries; the status
fold reads only each container's `"State"` entry (lowercased), so a
container is modelled by that state string. -/

/-- `s.lower()` on a container state string (ASCII lowercasing). -/
def toLowerStr (s : String) : String :=
  ⟨s.data.map lowerChar⟩

/-- The running-like state set `["running", "up"]`. -/
def runningStates : List String := ["running", "up"]

/-- The stopped-like state set `["exited", "stopped", "created"]`. -/
def stoppedStates : List String := ["exited", "stopped", "created"]

/-- Number of containers counted by the `state in ["running", "up"]` branch. -/
def countRunning (states : List String) : Nat :=
  (states.filter (fun s => runningStates.contains (toLowerStr s))).length

/-- Number of containers counted by the `elif state in ["exited", "stopped",
"created"]` branch (reached only when the `running` branch did not fire). -/
def countStopped (states : List String) : Nat :=
  (states.filter (fun s =>
    !(runningStates.contains (toLowerStr s)) && stoppedStates.contains (toLowerStr s))).length

/-- Number of containers counted by the final `else` branch. -/
def countError (states : List String) : Nat :=
  (states.filter (fun s =>
    !(runningStates.contains (toLowerStr s)) && !(stoppedStates.contains (toLowerStr s)))).length

/-- `get_stack_status`, as a function of the containers' reported `"State"`
strings and of whether the stack directory exists (`stack_exists`). -/
def get_stack_status (states : List String) (dirExists : Bool) : String :=
  if states = [] then
    if dirExists then "created" else "error"
  else
    let running := countRunning states
    let stopped := countStopped states
    let error := countError states
    if error > 0 then "error"
    else if running > 0 ∧ stopped = 0 then "running"
    else if stopped > 0 ∧ running = 0 then "stopped"
    else "created"

end Stackwiz

namespace Stackwiz

/-- C4: for every stack, status derivation yields `"created"` when there are no
containers but the stack directory exists; `"error"` when there are no
containers and the directory is absent; `"error"` when any container's state
lies outside both the running-like set `{running, up}` and the stopped-like
set `{exited, stopped, created}`; `"running"` when running-count > 0 and
stopped-count = 0; `"stopped"` when stopped-count > 0 and running-count = 0;
and `"created"` for a genuine mix of running and stopped containers (never
`"partial"` or `"running"`). -/
theorem c4_status_derivation :
    (∀ d : Bool, get_stack_status [] d = if d then "created" else "error") ∧
    (∀ states (d : Bool), (∃ s ∈ states,
        runningStates.contains (toLowerStr s) = false ∧
        stoppedStates.contains (toLowerStr s) = false) →
      get_stack_status states d = "error") ∧
    (∀ states (d : Bool), countRunning states > 0 → countStopped states = 0 →
      countError states = 0 → get_stack_status states d = "running") ∧
    (∀ states (d : Bool), countStopped states > 0 → countRunning states = 0 →
      countError states = 0 → get_stack_status states d = "stopped") ∧
    (∀ states (d : Bool), countRunning states > 0 → countStopped states > 0 →
      countError states = 0 → get_stack_status states d = "created") := by
  have hne : ∀ {p : String → Bool} {states : List String},
      (states.filter p).length > 0 → states ≠ [] := by
    intro p states h h0
    subst h0
    simp at h
  refine ⟨fun d => by cases d <;> rfl, ?_, ?_, ?_, ?_⟩
  · intro states d ⟨s, hs, h1, h2⟩
    have herr : countError states > 0 := by
      have hmem : s ∈ states.filter (fun s =>
          !(runningStates.contains (toLowerStr s)) &&
          !(stoppedStates.contains (toLowerStr s))) :=
        List.mem_filter.mpr ⟨hs, by rw [h1, h2]; rfl⟩
      rw [countError]
      exact List.length_pos.mpr (fun hnil => by rw [hnil] at hmem; simp at hmem)
    rw [get_stack_status, if_neg (hne herr)]
    simp only
    rw [if_pos herr]
  · intro states d hr hs he
    rw [get_stack_status, if_neg (hne hr)]
    simp only
    rw [if_neg (by omega), if_pos ⟨hr, hs⟩]
  · intro states d hs hr he
    rw [get_stack_status, if_neg (hne hs)]
    simp only
    rw [if_neg (by omega), if_neg (by omega), if_pos ⟨hs, hr⟩]
  · intro states d hr hs he
    rw [get_stack_status, if_neg (hne hr)]
    simp only
    rw [if_neg (by omega), if_neg (by omega), if_neg (by omega)]

/-- Witness for C4: the mixed `[running, exited]` case with an existing
directory evaluates to `"created"`. -/
theorem c4_status_derivation_witness :
    get_stack_status ["running", "exited"] true = "created" :=
  c4_status_derivation.2.2.2.2 ["running", "exited"] true (by decide) (by decide) (by decide)

end Stackwiz

namespace Stackwiz

/-! ## `HealthChecker.check_all` (src/stackwiz_mcp/utils/health.py, lines 193–262)

Each of the five checks either returns a `(healthy, message)` pair, exceeds
the 10-second `asyncio.wait_for` bound, or raises; `_run_check` converts the
latter two into unhealthy results.  (The `isinstance(result, Exception)`
branch of `check_all` is unreachable because `_run_check` already catches
every exception.) -/

/-- What one health check's coroutine does when awaited. -/
inductive CheckOutcome where
  | ok (healthy : Bool) (message : String)
  | timedOut
  | raised (msg : String)

/-- `HealthChecker._run_check`: run one check under a 10-second timeout,
reporting a timeout or an exception as that check's unhealthy result. -/
def runCheck : CheckOutcome → Bool × String
  | .ok h m => (h, m)
  | .timedOut => (false, "Health check timed out")
  | .raised e => (false, "Health check error: " ++ e)

/-- One entry of the `results` dictionary built by `check_all`. -/
structure CheckReport where
  name : String
  healthy : Bool
  message : String
  critical : Bool

/-- The two aggregate flags threaded through `check_all`'s result loop
(`all_healthy` and `critical_healthy`, both initialized `True`). -/
structure AggState where
  allHealthy : Bool := true
  criticalHealthy : Bool := true

/-- One iteration of the `for check, result in zip(...)` loop body:
`if not healthy: all_healthy = False; if check.critical: critical_healthy = False`. -/
def aggStep (s : AggState) (r : CheckReport) : AggState :=
  if r.healthy then s
  else { allHealthy := false,
         criticalHealthy := if r.critical then false else s.criticalHealthy }

/-- The outcome of awaiting each of the five registered checks, in
registration order (docker/filesystem critical; dns/network/traefik not). -/
structure HealthOutcomes where
  docker : CheckOutcome
  filesystem : CheckOutcome
  dns : CheckOutcome
  network : CheckOutcome
  traefik : CheckOutcome

/-- The aggregate returned by `check_all`. -/
structure HealthSummary where
  healthy : Bool
  allHealthy : Bool
  checks : List CheckReport

/-- `HealthChecker.check_all`: run the five checks (each through
`_run_check`), build the per-check reports, and fold the aggregate flags. -/
def check_all (o : HealthOutcomes) : HealthSummary :=
  let results : List CheckReport :=
    [⟨"docker", (runCheck o.docker).1, (runCheck o.docker).2, true⟩,
     ⟨"filesystem", (runCheck o.filesystem).1, (runCheck o.filesystem).2, true⟩,
     ⟨"dns", (runCheck o.dns).1, (runCheck o.dns).2, false⟩,
     ⟨"network", (runCheck o.network).1, (runCheck o.network).2, false⟩,
     ⟨"traefik", (runCheck o.traefik).1, (runCheck o.traefik).2, false⟩]
  let final := results.foldl aggStep {}
  { healthy := final.criticalHealthy, allHealthy := final.allHealthy, checks := results }

/-- C6: over the five checks (container engine and filesystem critical; DNS,
network, reverse proxy non-critical), the aggregate `healthy` flag is true
exactly when both critical checks pass, regardless of the non-critical
outcomes; `all_healthy` is true exactly when all five pass; and a check that
times out or raises is reported as that single check's unhealthy result
(with the corresponding message) while the other four are reported from
their own outcomes — the batch is not aborted. -/
theorem c6_health_aggregate (o : HealthOutcomes) :
    (check_all o).healthy = ((runCheck o.docker).1 && (runCheck o.filesystem).1) ∧
    (check_all o).allHealthy =
      ((runCheck o.docker).1 && (runCheck o.filesystem).1 && (runCheck o.dns).1 &&
        (runCheck o.network).1 && (runCheck o.traefik).1) ∧
    (check_all o).checks =
      [⟨"docker", (runCheck o.docker).1, (runCheck o.docker).2, true⟩,
       ⟨"filesystem", (runCheck o.filesystem).1, (runCheck o.filesystem).2, true⟩,
       ⟨"dns", (runCheck o.dns).1, (runCheck o.dns).2, false⟩,
       ⟨"network", (runCheck o.network).1, (runCheck o.network).2, false⟩,
       ⟨"traefik", (runCheck o.traefik).1, (runCheck o.traefik).2, false⟩] ∧
    runCheck .timedOut = (false, "Health check timed out") ∧
    (∀ e, runCheck (.raised e) = (false, "Health check error: " ++ e)) := by
  refine ⟨?_, ?_, rfl, rfl, fun e => rfl⟩
  · cases hd : (runCheck o.docker).1 <;> cases hf : (runCheck o.filesystem).1 <;>
      cases hn : (runCheck o.dns).1 <;> cases hw : (runCheck o.network).1 <;>
      cases ht : (runCheck o.traefik).1 <;>
      simp [check_all, aggStep, hd, hf, hn, hw, ht]
  · cases hd : (runCheck o.docker).1 <;> cases hf : (runCheck o.filesystem).1 <;>
      cases hn : (runCheck o.dns).1 <;> cases hw : (runCheck o.network).1 <;>
      cases ht : (runCheck o.traefik).1 <;>
      simp [check_all, aggStep, hd, hf, hn, hw, ht]

end Stackwiz

namespace Stackwiz

/-! ## `cloudflare_api_request` (src/stackwiz_mcp/server.py, lines 279–407)
and `parse_cloudflare_error` (lines 237–276)

The HTTP layer is abstracted by an oracle `responses : Nat → CFResp` giving
what `requests.<method>(...)` does on each attempt number (the method/URL/
headers/payload only select which call is made; an unsupported method name
returns immediately and is not modelled).  The returned list of rationals
records the durations passed to `time.sleep`, in order. -/

/-- One entry of a Cloudflare `error_chain`. `message` is `none` when the
key is absent. -/
structure CFChainEntry where
  message : Option String := none
deriving DecidableEq

/-- One entry of the `errors` array of a Cloudflare response body.  Fields
are `none` when the corresponding key is absent. -/
structure CFErr where
  code : Option Int := none
  message : Option String := none
  errorChain : List CFChainEntry := []
deriving DecidableEq

/-- One entry of the `result` array of a Cloudflare DNS-records response;
the deletion loop reads only the record's `id`. -/
structure CFRecord where
  id : String
deriving DecidableEq

/-- A parsed (valid-JSON) Cloudflare response body: its `success` flag
(absent or non-true counts as `false`), its `errors` array, and its
`result` array (absent counts as empty). -/
structure CFBody where
  success : Bool := false
  errors : List CFErr := []
  result : List CFRecord := []
deriving DecidableEq

/-- `parse_cloudflare_error`: join, per error, `[code] message` (code only
when truthy), appending truthy nested error-chain messages in parentheses,
with multiple errors joined by `"; "`. -/
def parse_cloudflare_error (body : CFBody) : String :=
  if body.errors = [] then "Unknown Cloudflare API error"
  else
    let parts := body.errors.map (fun e =>
      let message0 := match e.message with
        | none => "Unknown error"
        | some m => m
      let chainMsgs := e.errorChain.filterMap (fun ce =>
        match ce.message with
        | some m => if m = "" then none else some m
        | none => none)
      let message1 :=
        if chainMsgs = [] then message0
        else message0 ++ " (" ++ String.intercalate "; " chainMsgs ++ ")"
      match e.code with
      | some c => if c ≠ 0 then "[" ++ toString c ++ "] " ++ message1 else message1
      | none => message1)
    String.intercalate "; " parts

/-- What one attempt's `requests` call does: an HTTP response (status,
optional `Retry-After` header, body if it parses as JSON), a timeout, a
connection error, or some other exception. -/
inductive CFResp where
  | http (status : Nat) (retryAfter : Option String) (body : Option CFBody)
  | timeout
  | connError (msg : String)
  | exc (msg : String)

/-- The value of `cloudflare_api_request`: `(True, response_json)` or
`(False, {"error": ..., "status_code"?: ...})`. -/
inductive CFResult where
  | ok (body : CFBody)
  | err (error : String) (statusCode : Option Nat)
deriving DecidableEq

/-- `base_delay * (2 ** attempt)`, the exponential backoff schedule. -/
def backoff (baseDelay : ℚ) (attempt : Nat) : ℚ := baseDelay * 2 ^ attempt

/-- The final `return (False, {"error": last_error or "Unknown error after
all retries"})` (an empty `last_error` string is falsy). -/
def cfFinal (lastError : Option String) : CFResult :=
  .err (match lastError with
        | some e => if e = "" then "Unknown error after all retries" else e
        | none => "Unknown error after all retries") none

/-- The `for attempt in range(max_retries + 1)` loop of
`cloudflare_api_request`, over the remaining attempt numbers.  `continue`
recurses on the rest of the range; `break` and `return` produce the result
directly; sleeps are recorded in the returned list. -/
def cfGo (responses : Nat → CFResp) (maxRetries : Nat) (baseDelay : ℚ) :
    List Nat → Option String → CFResult × List ℚ
  | [], lastError => (cfFinal lastError, [])
  | attempt :: rest, lastError =>
    match responses attempt with
    | .timeout =>
      let le := some "Request timeout"
      if attempt < maxRetries then
        let next := cfGo responses maxRetries baseDelay rest le
        (next.1, backoff baseDelay attempt :: next.2)
      else cfGo responses maxRetries baseDelay rest le
    | .connError m =>
      let le := some ("Connection error: " ++ m)
      if attempt < maxRetries then
        let next := cfGo responses maxRetries baseDelay rest le
        (next.1, backoff baseDelay attempt :: next.2)
      else cfGo responses maxRetries baseDelay rest le
    | .exc m => (cfFinal (some m), [])
    | .http status retryAfter body =>
      if status = 429 then
        let waitTime : ℚ := match retryAfter with
          | some s => match s.toInt? with
            | some n => (n : ℚ)
            | none => backoff baseDelay attempt
          | none => backoff baseDelay attempt
        if attempt < maxRetries then
          if waitTime < 0 then
            -- `time.sleep` rejects a negative duration; the ValueError is
            -- caught by the blanket `except Exception` handler and breaks
            (.err "sleep length must be non-negative" none, [])
          else
            let next := cfGo responses maxRetries baseDelay rest lastError
            (next.1, waitTime :: next.2)
        else (.err "Rate limit exceeded after max retries" (some 429), [])
      else if 500 ≤ status ∧ status < 600 then
        if attempt < maxRetries then
          let next := cfGo responses maxRetries baseDelay rest lastError
          (next.1, backoff baseDelay attempt :: next.2)
        else
          (.err ("Server error " ++ toString status ++ " after max retries") (some status), [])
      else
        match body with
        | none => (.err "Invalid JSON response from Cloudflare API" (some status), [])
        | some b =>
          if (status = 200 ∨ status = 201) ∧ b.success then (.ok b, [])
          else (.err (parse_cloudflare_error b) (some status), [])

/-- `cloudflare_api_request` with its default `max_retries = 3` and
`base_delay = 1.0`, as a function of the per-attempt response oracle. -/
def cloudflare_api_request (responses : Nat → CFResp) (maxRetries : Nat := 3)
    (baseDelay : ℚ := 1) : CFResult × List ℚ :=
  cfGo responses maxRetries baseDelay (List.range (maxRetries + 1)) none

end Stackwiz

namespace Stackwiz

lemma cfGo_cons_5xx (responses : Nat → CFResp) (m : Nat) (d : ℚ) (attempt : Nat)
    (rest : List Nat) (le : Option String) {st : Nat} {ra : Option String}
    {b : Option CFBody} (hresp : responses attempt = .http st ra b)
    (h1 : 500 ≤ st) (h2 : st < 600) (hlt : attempt < m) :
    cfGo responses m d (attempt :: rest) le =
      ((cfGo responses m d rest le).1,
        backoff d attempt :: (cfGo responses m d rest le).2) := by
  simp only [cfGo, hresp]
  rw [if_neg (by omega), if_pos ⟨h1, h2⟩, if_pos hlt]

lemma cfGo_last_5xx (responses : Nat → CFResp) (m : Nat) (d : ℚ) (attempt : Nat)
    (rest : List Nat) (le : Option String) {st : Nat} {ra : Option String}
    {b : Option CFBody} (hresp : responses attempt = .http st ra b)
    (h1 : 500 ≤ st) (h2 : st < 600) (hlt : ¬ attempt < m) :
    cfGo responses m d (attempt :: rest) le =
      (.err ("Server error " ++ toString st ++ " after max retries") (some st), []) := by
  simp only [cfGo, hresp]
  rw [if_neg (by omega), if_pos ⟨h1, h2⟩, if_neg hlt]

lemma cfGo_cons_429_header (responses : Nat → CFResp) (m : Nat) (d : ℚ) (attempt : Nat)
    (rest : List Nat) (le : Option String) {s : String} {b : Option CFBody} {k : ℤ}
    (hresp : responses attempt = .http 429 (some s) b)
    (hs : s.toInt? = some k) (hlt : attempt < m) (hk : ¬ ((k : ℚ) < 0)) :
    cfGo responses m d (attempt :: rest) le =
      ((cfGo responses m d rest le).1, (k : ℚ) :: (cfGo responses m d rest le).2) := by
  simp only [cfGo, hresp, hs]
  rw [if_pos trivial, if_pos hlt, if_neg hk]

lemma cfGo_cons_json_fail (responses : Nat → CFResp) (m : Nat) (d : ℚ) (attempt : Nat)
    (rest : List Nat) (le : Option String) {st : Nat} {ra : Option String}
    (hresp : responses attempt = .http st ra none)
    (h429 : st ≠ 429) (h5 : ¬ (500 ≤ st ∧ st < 600)) :
    cfGo responses m d (attempt :: rest) le =
      (.err "Invalid JSON response from Cloudflare API" (some st), []) := by
  simp only [cfGo, hresp]
  rw [if_neg h429, if_neg h5]

end Stackwiz

namespace Stackwiz

/-- Wherever the retry loop returns a success, some attempt's response was a
200/201 whose JSON body reports success. -/
lemma cfGo_ok_source (responses : Nat → CFResp) (m : Nat) (d : ℚ) :
    ∀ (l : List Nat) (le : Option String) (b : CFBody) (ws : List ℚ),
      cfGo responses m d l le = (.ok b, ws) →
      ∃ i ∈ l, ∃ st ra, responses i = .http st ra (some b) ∧
        (st = 200 ∨ st = 201) ∧ b.success = true := by
  intro l
  induction l with
  | nil =>
    intro le b ws h
    simp only [cfGo, cfFinal, Prod.mk.injEq] at h
    exact CFResult.noConfusion h.1
  | cons attempt rest ih =>
    intro le b ws h
    have step : ∀ (le' : Option String) (w : ℚ),
        ((cfGo responses m d rest le').1, w :: (cfGo responses m d rest le').2) = (.ok b, ws) →
        ∃ i ∈ attempt :: rest, ∃ st ra, responses i = .http st ra (some b) ∧
          (st = 200 ∨ st = 201) ∧ b.success = true := by
      intro le' w hw
      have h1 := congrArg Prod.fst hw
      simp only at h1
      obtain ⟨i, hi, rest'⟩ := ih le' b (cfGo responses m d rest le').2
        (Prod.ext h1 rfl)
      exact ⟨i, List.mem_cons_of_mem _ hi, rest'⟩
    have stepPlain : ∀ (le' : Option String),
        cfGo responses m d rest le' = (.ok b, ws) →
        ∃ i ∈ attempt :: rest, ∃ st ra, responses i = .http st ra (some b) ∧
          (st = 200 ∨ st = 201) ∧ b.success = true := by
      intro le' hw
      obtain ⟨i, hi, rest'⟩ := ih le' b ws hw
      exact ⟨i, List.mem_cons_of_mem _ hi, rest'⟩
    cases hresp : responses attempt with
    | timeout =>
      simp only [cfGo, hresp] at h
      split_ifs at h
      · exact step _ _ h
      · exact stepPlain _ h
    | connError msg =>
      simp only [cfGo, hresp] at h
      split_ifs at h
      · exact step _ _ h
      · exact stepPlain _ h
    | exc msg =>
      simp only [cfGo, cfFinal, hresp, Prod.mk.injEq] at h
      exact CFResult.noConfusion h.1
    | http st ra body =>
      cases body with
      | none =>
        simp only [cfGo, hresp] at h
        split_ifs at h <;>
          first
            | exact step _ _ h
            | exact stepPlain _ h
            | exact CFResult.noConfusion (congrArg Prod.fst h)
      | some bb =>
        simp only [cfGo, hresp] at h
        by_cases h429 : st = 429
        · rw [if_pos h429] at h
          split_ifs at h
          · exact CFResult.noConfusion (congrArg Prod.fst h)
          · exact step _ _ h
          · exact CFResult.noConfusion (congrArg Prod.fst h)
        · rw [if_neg h429] at h
          by_cases h5 : 500 ≤ st ∧ st < 600
          · rw [if_pos h5] at h
            split_ifs at h
            · exact step _ _ h
            · exact CFResult.noConfusion (congrArg Prod.fst h)
          · rw [if_neg h5] at h
            by_cases hsucc : (st = 200 ∨ st = 201) ∧ bb.success = true
            · rw [if_pos hsucc] at h
              injection h with h1 h2
              injection h1 with hb
              subst hb
              exact ⟨attempt, List.mem_cons_self _ _, st, ra, hresp, hsucc.1, hsucc.2⟩
            · rw [if_neg hsucc] at h
              exact CFResult.noConfusion (congrArg Prod.fst h)

end Stackwiz

namespace Stackwiz

/-- C2: for a DNS-provider API request (default schedule, `max_retries = 3`,
`base_delay = 1.0`): a 429 response with a numeric `Retry-After` header makes
the client wait exactly that many seconds before the next attempt; four
consecutive 5xx responses are retried after waits of 1, 2, then 4 seconds
and the call then fails carrying the last status code; a response (neither
429 nor 5xx) whose body is not parseable JSON fails immediately with no
sleep, carrying the status code; and the only success outcome is a 200/201
response whose JSON body reports success. -/
theorem c2_cloudflare_retry :
    (∀ (responses : Nat → CFResp) (n : ℕ) (s : String) (body : Option CFBody),
      responses 0 = .http 429 (some s) body → s.toInt? = some (n : ℤ) →
      (cloudflare_api_request responses).2.head? = some (n : ℚ)) ∧
    (∀ (responses : Nat → CFResp) (s0 s1 s2 s3 : Nat) (ra0 ra1 ra2 ra3 : Option String)
        (b0 b1 b2 b3 : Option CFBody),
      responses 0 = .http s0 ra0 b0 → 500 ≤ s0 → s0 < 600 →
      responses 1 = .http s1 ra1 b1 → 500 ≤ s1 → s1 < 600 →
      responses 2 = .http s2 ra2 b2 → 500 ≤ s2 → s2 < 600 →
      responses 3 = .http s3 ra3 b3 → 500 ≤ s3 → s3 < 600 →
      cloudflare_api_request responses =
        (.err ("Server error " ++ toString s3 ++ " after max retries") (some s3),
          [1, 2, 4])) ∧
    (∀ (responses : Nat → CFResp) (st : Nat) (ra : Option String),
      responses 0 = .http st ra none → st ≠ 429 → ¬(500 ≤ st ∧ st < 600) →
      cloudflare_api_request responses =
        (.err "Invalid JSON response from Cloudflare API" (some st), [])) ∧
    (∀ (responses : Nat → CFResp) (b : CFBody) (ws : List ℚ),
      cloudflare_api_request responses = (.ok b, ws) →
      ∃ i, i ≤ 3 ∧ ∃ st ra, responses i = .http st ra (some b) ∧
        (st = 200 ∨ st = 201) ∧ b.success = true) := by
  have hrange : List.range (3 + 1) = [0, 1, 2, 3] := rfl
  refine ⟨?_, ?_, ?_, ?_⟩
  · intro responses n s body h0 hs
    rw [cloudflare_api_request, hrange,
      cfGo_cons_429_header responses 3 1 0 [1, 2, 3] none h0 hs (by norm_num)
        (by push_neg; positivity)]
    rfl
  · intro responses s0 s1 s2 s3 ra0 ra1 ra2 ra3 b0 b1 b2 b3
      h0 h0a h0b h1 h1a h1b h2 h2a h2b h3 h3a h3b
    rw [cloudflare_api_request, hrange,
      cfGo_cons_5xx responses 3 1 0 [1, 2, 3] none h0 h0a h0b (by norm_num),
      cfGo_cons_5xx responses 3 1 1 [2, 3] none h1 h1a h1b (by norm_num),
      cfGo_cons_5xx responses 3 1 2 [3] none h2 h2a h2b (by norm_num),
      cfGo_last_5xx responses 3 1 3 [] none h3 h3a h3b (by norm_num)]
    norm_num [backoff]
  · intro responses st ra h0 h429 h5
    rw [cloudflare_api_request, hrange,
      cfGo_cons_json_fail responses 3 1 0 [1, 2, 3] none h0 h429 h5]
  · intro responses b ws h
    obtain ⟨i, hi, rest'⟩ :=
      cfGo_ok_source responses 3 1 (List.range (3 + 1)) none b ws h
    rw [hrange] at hi
    refine ⟨i, ?_, rest'⟩
    simp only [List.mem_cons, List.not_mem_nil, or_false] at hi
    rcases hi with h | h | h | h <;> omega

/-- Witness for C2: four consecutive 503 responses exhaust the retries after
waits of 1, 2, 4 seconds and fail carrying status 503. -/
theorem c2_cloudflare_retry_witness :
    cloudflare_api_request (fun _ => .http 503 none none) =
      (.err ("Server error " ++ toString 503 ++ " after max retries") (some 503),
        [1, 2, 4]) :=
  c2_cloudflare_retry.2.1 (fun _ => .http 503 none none) 503 503 503 503
    none none none none none none none none
    rfl (by norm_num) (by norm_num) rfl (by norm_num) (by norm_num)
    rfl (by norm_num) (by norm_num) rfl (by norm_num) (by norm_num)

end Stackwiz

namespace Stackwiz

/-! ## `delete_dns_record` (src/stackwiz_mcp/server.py, lines 1163–1278)

The tool's external calls are abstracted by their outcomes: the resolved
API token (`get_cloudflare_api_token`), the zone-ID lookup
(`get_cloudflare_zone_id`), the record search (a `cloudflare_api_request`
GET), and the per-record-id DELETE outcome.  The response dictionary is
modelled by `DeleteDnsOutcome`; the optional `failed_records` key is the
list, which is attached only when nonempty. -/

/-- Whether a `cloudflare_api_request` outcome is the success case. -/
def cfOk : CFResult → Bool
  | .ok _ => true
  | .err _ _ => false

/-- The tool's response dictionary: `{"success": False, "error": ...}` or
`{"success": True, "message": ..., "details": {"records_deleted": ...,
"failed_records"?: ...}}`. -/
inductive DeleteDnsOutcome where
  | failure (error : String)
  | success (message : String) (recordsDeleted : Nat)
      (failedRecords : List (String × String))
deriving DecidableEq

/-- The entry appended to `failed_records` for a record whose DELETE fails. -/
def failEntry (delResult : String → CFResult) (r : CFRecord) : Option (String × String) :=
  match delResult r.id with
  | .ok _ => none
  | .err e _ => some (r.id, e)

/-- `delete_dns_record`: resolve the token, the zone and the matching
records, then attempt to delete each record independently, counting
successes and collecting per-record failures. -/
def delete_dns_record (apiToken : Option String) (zoneResult : Except String String)
    (searchResult : CFResult) (delResult : String → CFResult)
    (subdomain domain : String) : DeleteDnsOutcome :=
  match apiToken with
  | none => .failure "Cloudflare API token not configured"
  | some t =>
    if t = "" then .failure "Cloudflare API token not configured"
    else
      match zoneResult with
      | .error e => .failure e
      | .ok _ =>
        let fullDomain := subdomain ++ "." ++ domain
        match searchResult with
        | .err e _ => .failure e
        | .ok body =>
          let records := body.result
          if records = [] then .failure ("No DNS record found for " ++ fullDomain)
          else
            let outcomes := records.map (fun r => (r.id, delResult r.id))
            let deletedCount := (outcomes.filter (fun p => cfOk p.2)).length
            let failedRecords := outcomes.filterMap (fun p =>
              match p.2 with
              | .ok _ => none
              | .err e _ => some (p.1, e))
            if deletedCount > 0 then
              .success ("Deleted " ++ toString deletedCount ++ " DNS record(s) for " ++
                fullDomain) deletedCount failedRecords
            else
              .failure ("Failed to delete any DNS records: " ++
                (match failedRecords.head? with
                 | some f => f.2
                 | none => "Unknown error"))

end Stackwiz

namespace Stackwiz

/-- C3: for a `delete_dns_record` call that reaches the deletion loop (token
present, zone resolved, search succeeded): all records matching the full
subdomain are attempted independently; if at least one deletion succeeds,
the result is a success whose `records_deleted` equals the number actually
deleted, with one `failed_records` entry per failed deletion; the result is
a failure when zero records could be deleted, and also when no record
matched at all. -/
theorem c3_delete_dns_record (t : String) (ht : t ≠ "") (zoneId : String)
    (body : CFBody) (del : String → CFResult) (sub dom : String) :
    (body.result = [] →
      delete_dns_record (some t) (.ok zoneId) (.ok body) del sub dom =
        .failure ("No DNS record found for " ++ (sub ++ "." ++ dom))) ∧
    (0 < (body.result.filter (fun r => cfOk (del r.id))).length →
      delete_dns_record (some t) (.ok zoneId) (.ok body) del sub dom =
        .success ("Deleted " ++ toString (body.result.filter (fun r => cfOk (del r.id))).length ++
            " DNS record(s) for " ++ (sub ++ "." ++ dom))
          (body.result.filter (fun r => cfOk (del r.id))).length
          (body.result.filterMap (failEntry del))) ∧
    (body.result ≠ [] → (∀ r ∈ body.result, cfOk (del r.id) = false) →
      ∃ e, delete_dns_record (some t) (.ok zoneId) (.ok body) del sub dom =
        .failure ("Failed to delete any DNS records: " ++ e)) ∧
    (∀ msg n fr,
      delete_dns_record (some t) (.ok zoneId) (.ok body) del sub dom =
        .success msg n fr →
      ∃ r ∈ body.result, cfOk (del r.id) = true) := by
  have hcount : ∀ (records : List CFRecord),
      ((records.map (fun r => (r.id, del r.id))).filter (fun p => cfOk p.2)).length =
        (records.filter (fun r => cfOk (del r.id))).length := by
    intro records
    rw [List.filter_map]
    rw [List.length_map]
    rfl
  have hfails : ∀ (records : List CFRecord),
      (records.map (fun r => (r.id, del r.id))).filterMap (fun p =>
        match p.2 with
        | .ok _ => none
        | .err e _ => some (p.1, e)) = records.filterMap (failEntry del) := by
    intro records
    rw [List.filterMap_map]
    rfl
  refine ⟨?_, ?_, ?_, ?_⟩
  · intro hnil
    simp only [delete_dns_record, if_neg ht, if_pos hnil]
  · intro hpos
    have hne : body.result ≠ [] := by
      intro hnil
      rw [hnil] at hpos
      simp at hpos
    simp only [delete_dns_record, if_neg ht, if_neg hne, hcount, hfails, if_pos hpos]
  · intro hne hall
    have hzero : (body.result.filter (fun r => cfOk (del r.id))).length = 0 := by
      rw [List.length_eq_zero, List.filter_eq_nil_iff]
      intro r hr
      simp [hall r hr]
    refine ⟨(match body.result.filterMap (failEntry del) |>.head? with
             | some f => f.2
             | none => "Unknown error"), ?_⟩
    simp only [delete_dns_record, if_neg ht, if_neg hne, hcount, hfails, hzero,
      if_neg (by omega : ¬ (0 : Nat) > 0)]
  · intro msg n fr h
    by_cases hnil : body.result = []
    · simp only [delete_dns_record, if_neg ht, if_pos hnil] at h
      exact DeleteDnsOutcome.noConfusion h
    · simp only [delete_dns_record, if_neg ht, if_neg hnil, hcount, hfails] at h
      by_cases hpos : (body.result.filter (fun r => cfOk (del r.id))).length > 0
      · obtain ⟨r, hr⟩ := List.exists_mem_of_ne_nil _ (List.length_pos.mp hpos)
        have := List.mem_filter.mp hr
        exact ⟨r, this.1, this.2⟩
      · rw [if_neg hpos] at h
        exact DeleteDnsOutcome.noConfusion h

end Stackwiz

namespace Stackwiz

/-- Witness for C3: three matching records, the provider rejecting one
deletion — success with `records_deleted = 2` and one failed-records entry. -/
theorem c3_delete_dns_record_witness :
    delete_dns_record (some "tok") (.ok "zone1")
        (.ok { success := true, result := [⟨"r1"⟩, ⟨"r2"⟩, ⟨"r3"⟩] })
        (fun id => if id = "r2" then .err "rejected by provider" (some 400) else .ok {})
        "app" "rbnk.uk" =
      .success "Deleted 2 DNS record(s) for app.rbnk.uk" 2
        [("r2", "rejected by provider")] :=
  ((c3_delete_dns_record "tok" (by decide) "zone1"
      { success := true, result := [⟨"r1"⟩, ⟨"r2"⟩, ⟨"r3"⟩] }
      (fun id => if id = "r2" then .err "rejected by provider" (some 400) else .ok {})
      "app" "rbnk.uk").2.1 (by decide)).trans (by decide)

end Stackwiz

namespace Stackwiz

/-! ## Stack operations (src/stackwiz_mcp/tools/stack_operations.py) and the
registered `manage_stack` tool (src/stackwiz_mcp/server.py, lines 774–833)

The filesystem and the container engine are abstracted by `OpEnv`:
`dirs` is the set of existing stack directories (`stack_exists`), `status`
is `get_stack_status`, and `compose` gives the `(success, stdout, stderr)`
outcome of `run_docker_compose` for a given argument list.  `rmtreeResult`
is `none` when `shutil.rmtree` succeeds, `some e` when it raises with text
`e`.  Performed effects (compose invocations, the directory deletion
attempt) are recorded in the returned list.  The informational `details`
dictionaries of `StackOperationResult` are not referenced by any claim and
are not modelled. -/

/-- `SYSTEM_STACKS` from `stack_utils.py`. -/
def SYSTEM_STACKS : List String :=
  ["traefik", "monitoring", "supabase", "adguard", "_backup", "_scripts", "_templates", "docs"]

/-- `StackOperationParams` (`models/stack_models.py`, lines 270–274). -/
structure StackOperationParams where
  name : String
  force : Bool := false

/-- `StackLogsParams` (`models/stack_models.py`, lines 277–283).  The
numeric bounds `1 ≤ lines ≤ 10000` are enforced at construction; every
construction in the modelled call paths uses the default `lines = 100`. -/
structure StackLogsParams where
  name : String
  lines : Nat := 100
  service : Option String := none
  follow : Bool := false

/-- `StackOperationResult` without its informational `details` payload. -/
structure StackOperationResult where
  success : Bool
  message : String
  error : Option String := none
deriving DecidableEq

/-- An observable side effect of a stack operation. -/
inductive OpEffect where
  | composeRun (args : List String)
  | rmtree
deriving DecidableEq

/-- The environment a stack operation runs against. -/
structure OpEnv where
  dirs : List String
  status : String → String
  compose : List String → Bool × String × String

/-- `stderr or "Unknown error"` (an empty string is falsy). -/
def orUnknown (s : String) : String :=
  if s = "" then "Unknown error" else s

/-- `start_stack`. -/
def start_stack (env : OpEnv) (params : StackOperationParams) :
    StackOperationResult × List OpEffect :=
  if ¬ env.dirs.contains params.name then
    ({ success := false, message := "Stack '" ++ params.name ++ "' does not exist",
       error := some "Stack not found" }, [])
  else if env.status params.name = "running" then
    ({ success := true, message := "Stack '" ++ params.name ++ "' is already running" }, [])
  else
    let r := env.compose ["up", "-d"]
    if r.1 then
      ({ success := true, message := "Stack '" ++ params.name ++ "' started successfully" },
        [.composeRun ["up", "-d"]])
    else
      ({ success := false, message := "Failed to start stack '" ++ params.name ++ "'",
         error := some (orUnknown r.2.2) }, [.composeRun ["up", "-d"]])

/-- `stop_stack`. -/
def stop_stack (env : OpEnv) (params : StackOperationParams) :
    StackOperationResult × List OpEffect :=
  if ¬ env.dirs.contains params.name then
    ({ success := false, message := "Stack '" ++ params.name ++ "' does not exist",
       error := some "Stack not found" }, [])
  else if env.status params.name = "stopped" then
    ({ success := true, message := "Stack '" ++ params.name ++ "' is already stopped" }, [])
  else
    let r := env.compose ["down"]
    if r.1 then
      ({ success := true, message := "Stack '" ++ params.name ++ "' stopped successfully" },
        [.composeRun ["down"]])
    else
      ({ success := false, message := "Failed to stop stack '" ++ params.name ++ "'",
         error := some (orUnknown r.2.2) }, [.composeRun ["down"]])

/-- `restart_stack`. -/
def restart_stack (env : OpEnv) (params : StackOperationParams) :
    StackOperationResult × List OpEffect :=
  if ¬ env.dirs.contains params.name then
    ({ success := false, message := "Stack '" ++ params.name ++ "' does not exist",
       error := some "Stack not found" }, [])
  else
    let r := env.compose ["restart"]
    if r.1 then
      ({ success := true, message := "Stack '" ++ params.name ++ "' restarted successfully" },
        [.composeRun ["restart"]])
    else
      ({ success := false, message := "Failed to restart stack '" ++ params.name ++ "'",
         error := some (orUnknown r.2.2) }, [.composeRun ["restart"]])

/-- `remove_stack` (src/stackwiz_mcp/tools/stack_operations.py, lines
179–241): refuse protected stacks without force; stop first when running
(with `-v` when force is set), aborting the removal if the stop fails; only
then recursively delete the stack directory. -/
def remove_stack (env : OpEnv) (rmtreeResult : Option String)
    (params : StackOperationParams) : StackOperationResult × List OpEffect :=
  if ¬ env.dirs.contains params.name then
    ({ success := false, message := "Stack '" ++ params.name ++ "' does not exist",
       error := some "Stack not found" }, [])
  else if SYSTEM_STACKS.contains params.name ∧ ¬ params.force then
    ({ success := false,
       message := "Cannot remove system stack '" ++ params.name ++ "' without force flag",
       error := some "Protected system stack" }, [])
  else
    let cmd := if params.force then ["down", "-v"] else ["down"]
    let rmStep : List OpEffect → StackOperationResult × List OpEffect := fun effs =>
      match rmtreeResult with
      | none =>
        ({ success := true, message := "Stack '" ++ params.name ++ "' removed successfully" },
          effs ++ [.rmtree])
      | some e =>
        ({ success := false, message := "Failed to remove stack directory",
           error := some e }, effs ++ [.rmtree])
    if env.status params.name = "running" then
      let r := env.compose cmd
      if ¬ r.1 then
        ({ success := false,
           message := "Failed to stop stack '" ++ params.name ++ "' before removal",
           error := some (orUnknown r.2.2) }, [.composeRun cmd])
      else rmStep [.composeRun cmd]
    else rmStep []

/-- Python's `str.splitlines` restricted to `"\n"` terminators (the only
ones produced by the modelled commands). -/
def pySplitlines (s : String) : List String :=
  if s = "" then []
  else
    let parts := s.splitOn "\n"
    if parts.getLast? = some "" then parts.dropLast else parts

/-- `get_stack_logs` (src/stackwiz_mcp/tools/stack_operations.py, lines
244–302): build `["logs", "--tail=<lines>"]` (plus the optional service),
reject follow mode before invoking compose, otherwise run the command. -/
def get_stack_logs (env : OpEnv) (params : StackLogsParams) :
    StackOperationResult × List OpEffect :=
  if ¬ env.dirs.contains params.name then
    ({ success := false, message := "Stack '" ++ params.name ++ "' does not exist",
       error := some "Stack not found" }, [])
  else
    let cmd := ["logs", "--tail=" ++ toString params.lines] ++
      (match params.service with
       | some s => [s]
       | none => [])
    if params.follow then
      ({ success := false, message := "Follow mode is not supported in this context",
         error := some "Unsupported operation" }, [])
    else
      let r := env.compose cmd
      if r.1 then
        ({ success := true,
           message := "Retrieved " ++ toString (pySplitlines r.2.1).length ++
             " log lines from '" ++ params.name ++ "'" }, [.composeRun cmd])
      else
        ({ success := false, message := "Failed to get logs from stack '" ++ params.name ++ "'",
           error := some (orUnknown r.2.2) }, [.composeRun cmd])

/-- The value returned by the registered `manage_stack` tool: either one of
its own inline `{"success": False, "error": ...}` dictionaries, or a
`result.model_dump()` of the dispatched operation. -/
inductive ManageStackResponse where
  | plain (success : Bool) (error : String)
  | opResult (r : StackOperationResult)
deriving DecidableEq

/-- The registered `manage_stack` tool (src/stackwiz_mcp/server.py, lines
774–833).  For `remove` it constructs `StackOperationParams(name=stack_name)`
— so `force` is always `False`.  For `logs` it constructs
`StackLogsParams(name=stack_name, follow=follow_logs, tail=tail_lines)`:
`tail` is not a field of `StackLogsParams`, and pydantic's default
`extra="ignore"` drops the unknown keyword silently, so `lines` keeps its
default value 100 whatever `tail_lines` was. -/
def manage_stack (env : OpEnv) (rmtreeResult : Option String)
    (stackName action : String) (followLogs : Bool) (tailLines : Nat) :
    ManageStackResponse × List OpEffect :=
  if ¬ env.dirs.contains stackName then
    (.plain false ("Stack '" ++ stackName ++ "' not found"), [])
  else if action = "start" then
    let r := start_stack env { name := stackName }
    (.opResult r.1, r.2)
  else if action = "stop" then
    let r := stop_stack env { name := stackName }
    (.opResult r.1, r.2)
  else if action = "restart" then
    let r := restart_stack env { name := stackName }
    (.opResult r.1, r.2)
  else if action = "remove" then
    let r := remove_stack env rmtreeResult { name := stackName }
    (.opResult r.1, r.2)
  else if action = "logs" then
    let r := get_stack_logs env { name := stackName, lines := 100, follow := followLogs }
    (.opResult r.1, r.2)
  else
    (.plain false ("Unknown action: " ++ action), [])

end Stackwiz

namespace Stackwiz

/-- C9: removal is atomic with respect to the stack directory when the
pre-removal stop fails — for a remove of an existing, non-protected stack
whose derived status is `running`, a failing `compose down` yields
`success = false` with no directory deletion; and the recursive deletion is
only ever reached after a successful stop or when the stack was not
running. -/
theorem c9_remove_atomic :
    (∀ (env : OpEnv) (rmtreeResult : Option String) (p : StackOperationParams),
      env.dirs.contains p.name = true →
      ¬ (SYSTEM_STACKS.contains p.name = true ∧ ¬ p.force = true) →
      env.status p.name = "running" →
      (env.compose (if p.force then ["down", "-v"] else ["down"])).1 = false →
      (remove_stack env rmtreeResult p).1.success = false ∧
        OpEffect.rmtree ∉ (remove_stack env rmtreeResult p).2) ∧
    (∀ (env : OpEnv) (rmtreeResult : Option String) (p : StackOperationParams),
      OpEffect.rmtree ∈ (remove_stack env rmtreeResult p).2 →
      env.status p.name ≠ "running" ∨
        (env.compose (if p.force then ["down", "-v"] else ["down"])).1 = true) := by
  constructor
  · intro env rmtreeResult p hdir hsys hrun hfail
    have h1 : ¬ ¬ env.dirs.contains p.name = true := fun h => h hdir
    have h4 : ¬ (env.compose (if p.force then ["down", "-v"] else ["down"])).1 = true := by
      simp [hfail]
    simp only [remove_stack]
    rw [if_neg h1, if_neg hsys, if_pos hrun, if_pos h4]
    exact ⟨rfl, by simp⟩
  · intro env rmtreeResult p hmem
    by_cases hdir : env.dirs.contains p.name = true
    · have h1 : ¬ ¬ env.dirs.contains p.name = true := fun h => h hdir
      by_cases hsys : SYSTEM_STACKS.contains p.name = true ∧ ¬ p.force = true
      · simp only [remove_stack] at hmem
        rw [if_neg h1, if_pos hsys] at hmem
        simp at hmem
      · by_cases hrun : env.status p.name = "running"
        · by_cases hok : (env.compose (if p.force then ["down", "-v"] else ["down"])).1 = true
          · exact Or.inr hok
          · simp only [remove_stack] at hmem
            rw [if_neg h1, if_neg hsys, if_pos hrun, if_pos hok] at hmem
            simp at hmem
        · exact Or.inl hrun
    · have h1 : ¬ env.dirs.contains p.name = true := hdir
      simp only [remove_stack] at hmem
      rw [if_pos h1] at hmem
      simp at hmem

/-- Witness for C9: a running stack whose `compose down` fails is not
deleted. -/
theorem c9_remove_atomic_witness :
    (remove_stack ⟨["mystack"], fun _ => "running", fun _ => (false, "", "boom")⟩ none
        { name := "mystack" }).1.success = false ∧
      OpEffect.rmtree ∉
        (remove_stack ⟨["mystack"], fun _ => "running", fun _ => (false, "", "boom")⟩ none
          { name := "mystack" }).2 :=
  c9_remove_atomic.1 ⟨["mystack"], fun _ => "running", fun _ => (false, "", "boom")⟩ none
    { name := "mystack" } (by decide) (by decide) rfl rfl

end Stackwiz

namespace Stackwiz

set_option maxHeartbeats 2000000 in
/-- C10: the registered `manage_stack` tool constructs its remove parameters
with `force = False` on every call (it exposes no force input), so removing
a system-protected stack through it always fails with the "Protected system
stack" error with no effect performed; and no compose invocation it makes
for a remove ever carries `-v` — the volume-removing `down -v` branch is
unreachable through this tool. -/
theorem c10_manage_remove_protected :
    (∀ (env : OpEnv) (rmtreeResult : Option String) (stackName : String)
        (followLogs : Bool) (tailLines : Nat),
      env.dirs.contains stackName = true →
      SYSTEM_STACKS.contains stackName = true →
      (manage_stack env rmtreeResult stackName "remove" followLogs tailLines).1 =
        .opResult { success := false,
                    message := "Cannot remove system stack '" ++ stackName ++
                      "' without force flag",
                    error := some "Protected system stack" } ∧
      (manage_stack env rmtreeResult stackName "remove" followLogs tailLines).2 = []) ∧
    (∀ (env : OpEnv) (rmtreeResult : Option String) (stackName : String)
        (followLogs : Bool) (tailLines : Nat) (cmd : List String),
      OpEffect.composeRun cmd ∈
        (manage_stack env rmtreeResult stackName "remove" followLogs tailLines).2 →
      cmd = ["down"]) := by
  constructor
  · intro env rmtreeResult stackName followLogs tailLines hdir hsys
    simp only [manage_stack, remove_stack]
    rw [hdir, hsys]
    simp
  · intro env rmtreeResult stackName followLogs tailLines cmd hmem
    simp only [manage_stack, remove_stack] at hmem
    cases hdir : env.dirs.contains stackName
    all_goals cases rmtreeResult
    all_goals rw [hdir] at hmem
    all_goals split_ifs at hmem <;> simp_all

end Stackwiz

namespace Stackwiz

/-- Witness for C10: removing the protected `traefik` stack through
`manage_stack` fails with the "Protected system stack" error and performs
no effect. -/
theorem c10_manage_remove_protected_witness :
    (manage_stack ⟨["traefik"], fun _ => "stopped", fun _ => (true, "", "")⟩ none
        "traefik" "remove" false 100).1 =
      .opResult { success := false,
                  message := "Cannot remove system stack 'traefik' without force flag",
                  error := some "Protected system stack" } ∧
      (manage_stack ⟨["traefik"], fun _ => "stopped", fun _ => (true, "", "")⟩ none
        "traefik" "remove" false 100).2 = [] := by
  have h := c10_manage_remove_protected.1
    ⟨["traefik"], fun _ => "stopped", fun _ => (true, "", "")⟩ none
    "traefik" false 100 (by decide) (by decide)
  exact ⟨h.1.trans (by decide), h.2⟩

/-- C7 (code behavior at the failing input): through the registered
`manage_stack` tool, a `logs` request with `tail_lines = 500` on an existing
stack invokes `compose logs --tail=100` — the mis-named `tail` keyword is
dropped by pydantic's default `extra="ignore"` and `lines` keeps its default
100 — while `follow_logs = true` is rejected as unsupported without invoking
compose at all. -/
theorem c7_logs_tail_dropped :
    (manage_stack ⟨["demo"], fun _ => "running", fun _ => (true, "line1\nline2", "")⟩
        none "demo" "logs" false 500).2 =
      [OpEffect.composeRun ["logs", "--tail=100"]] ∧
    (manage_stack ⟨["demo"], fun _ => "running", fun _ => (true, "line1\nline2", "")⟩
        none "demo" "logs" true 500).1 =
      .opResult { success := false,
                  message := "Follow mode is not supported in this context",
                  error := some "Unsupported operation" } ∧
    (manage_stack ⟨["demo"], fun _ => "running", fun _ => (true, "line1\nline2", "")⟩
        none "demo" "logs" true 500).2 = [] := by
  refine ⟨?_, ?_, ?_⟩ <;> rfl

end Stackwiz

namespace Stackwiz

/-! ## `validate_stack_config` (src/stackwiz_mcp/tools/validate_config.py,
lines 19–251) with `ValidationResult` (src/stackwiz_mcp/models/
stack_models.py, lines 195–227)

The config dictionary is modelled by `VCConfig` with `none` for an absent
key; Python truthiness (`config.get(k)`) treats an empty string and the
integer 0 as absent.  The filesystem/docker facts consulted by the conflict
checks are the `ValidateEnv` oracle: existing stack directories
(`stack_exists`) and, per listed stack, the fields of `get_stack_info` the
checks read. -/

/-- A config dictionary as passed to `validate_stack_config`.  Ports arrive
as integers (string-typed ports, which the tool would reject in its
`int(...)` handler, are not modelled). -/
structure VCConfig where
  name : Option String := none
  type : Option String := none
  image : Option String := none
  port : Option Int := none
  domain : Option String := none

/-- `config.get(key)` truthiness for strings: an empty string is falsy. -/
def truthyS : Option String → Option String
  | none => none
  | some s => if s = "" then none else some s

/-- `config.get(key)` truthiness for integers: 0 is falsy. -/
def truthyI : Option Int → Option Int
  | none => none
  | some p => if p = 0 then none else some p

/-- `ValidationError` {field, message, suggestion?}. -/
structure VError where
  field : String
  message : String
  suggestion : Option String := none
deriving DecidableEq

/-- `ValidationResult` {valid, errors, warnings, port_conflicts,
domain_conflicts}. -/
structure VResult where
  valid : Bool := true
  errors : List VError := []
  warnings : List String := []
  portConflicts : List Int := []
  domainConflicts : List String := []
deriving DecidableEq

/-- `ValidationResult.add_error`: append the error and set `valid = False`. -/
def addError (r : VResult) (f m : String) (s : Option String := none) : VResult :=
  { r with errors := r.errors ++ [⟨f, m, s⟩], valid := false }

/-- `ValidationResult.add_warning`: append the warning only. -/
def addWarning (r : VResult) (m : String) : VResult :=
  { r with warnings := r.warnings ++ [m] }

/-- `re.match(r'^[a-z0-9-]+$', name)`: nonempty and all characters in
`[a-z0-9-]` (which is `goodChar`). -/
def nameFormatOk (s : String) : Bool :=
  ¬ s.data = [] && s.data.all goodChar

/-- Membership of `[a-zA-Z]` (codepoints 65–90 and 97–122). -/
def isAlpha (c : Char) : Bool :=
  (65 ≤ c.toNat && c.toNat ≤ 90) || (97 ≤ c.toNat && c.toNat ≤ 122)

/-- Membership of `[a-zA-Z0-9-]`. -/
def labelChar (c : Char) : Bool :=
  isAlpha c || (48 ≤ c.toNat && c.toNat ≤ 57) || c == '-'

/-- Split a character list on `'.'` (the list of parts `str.split` on a
dot would produce; always at least one part). -/
def splitDots : List Char → List (List Char)
  | [] => [[]]
  | c :: t =>
    if c == '.' then [] :: splitDots t
    else
      match splitDots t with
      | [] => [[c]]
      | h :: r => (c :: h) :: r

/-- `re.match(r'^([a-zA-Z0-9-]+\.)*[a-zA-Z0-9-]+\.[a-zA-Z]{2,}$', domain)`:
splitting on `'.'`, every part before the last is a nonempty `[a-zA-Z0-9-]`
label and the last part is two or more letters. -/
def isDomainFormat (s : String) : Bool :=
  let parts := splitDots s.data
  match parts.getLast? with
  | none => false
  | some tld =>
    ¬ parts.dropLast = [] &&
      parts.dropLast.all (fun l => ¬ l = [] && l.all labelChar) &&
      2 ≤ tld.length && tld.all isAlpha

/-- Per-stack facts read by the conflict checks (from `get_stack_info`). -/
structure EnvStack where
  name : String
  domain : Option String := none
  status : String := "created"
  port : Option Int := none
  containerPorts : List String := []

/-- The environment the validation tool consults. -/
structure ValidateEnv where
  dirs : List String := []
  stackList : List EnvStack := []

/-- Whether the first list is an initial segment of the second. -/
def listPre : List Char → List Char → Bool
  | [], _ => true
  | _ :: _, [] => false
  | a :: as, b :: bs => a == b && listPre as bs

/-- Whether `needle` occurs inside `hay`. -/
def listSub (needle : List Char) : List Char → Bool
  | [] => listPre needle []
  | c :: t => listPre needle (c :: t) || listSub needle t

/-- Python's `needle in hay` on strings. -/
def strContains (hay needle : String) : Bool :=
  listSub needle.data hay.data

end Stackwiz

namespace Stackwiz

/-- `_check_domain_conflict(domain, current_stack)`: some other stack's
(truthy) `APP_DOMAIN` equals the domain. -/
def checkDomainConflict (stackList : List EnvStack) (domain current : String) : Bool :=
  stackList.any (fun st =>
    ¬ st.name = current &&
      (match st.domain with
       | some d => ¬ d = "" && d == domain
       | none => false))

/-- `_check_port_conflict(port, current_stack)`: the first other *running*
stack whose recorded `APP_PORT` matches, or one of whose containers
publishes `":{port}->"`. -/
def checkPortConflict (stackList : List EnvStack) (port : Int) (current : String) :
    Option String :=
  stackList.findSome? (fun st =>
    if st.name = current then none
    else if ¬ st.status = "running" then none
    else if (match st.port with
             | some p => ¬ p = 0 && p == port
             | none => false) then some st.name
    else if st.containerPorts.any (fun ps =>
        ¬ ps = "" && strContains ps (":" ++ toString port ++ "->")) then some st.name
    else none)

/-- `config.get("type", "generic").lower()`. -/
def vStackType (config : VCConfig) : String :=
  toLowerStr (match config.type with
    | none => "generic"
    | some t => t)

/-- Rule 1: `name` is required. -/
def vRequired (config : VCConfig) (r : VResult) : VResult :=
  match truthyS config.name with
  | none => addError r "name" "Stack name is required"
  | some _ => r

/-- Rule 2a: name length 3–50. -/
def vNameLen (name : String) (r : VResult) : VResult :=
  if name.length < 3 then
    addError r "name" "Stack name must be at least 3 characters long"
  else if name.length > 50 then
    addError r "name" "Stack name must be less than 50 characters long"
  else r

/-- Rule 2b: charset `[a-z0-9-]`, suggesting the slugified form on
mismatch. -/
def vNameCharset (name : String) (r : VResult) : VResult :=
  if ¬ nameFormatOk name then
    addError r "name"
      "Stack name must contain only lowercase letters, numbers, and hyphens"
      (some ("Try: " ++ slugify name))
  else r

/-- Rule 2c: no leading/trailing hyphen. -/
def vNameHyphen (name : String) (r : VResult) : VResult :=
  if listPre ['-'] name.data || listPre ['-'] name.data.reverse then
    addError r "name" "Stack name cannot start or end with a hyphen"
  else r

/-- Rule 2: the three name-format checks, in source order, when a (truthy)
name was given. -/
def vNameFormat (config : VCConfig) (r : VResult) : VResult :=
  match truthyS config.name with
  | none => r
  | some name => vNameHyphen name (vNameCharset name (vNameLen name r))

/-- Rule 3: `generic` requires image and port; `pocketbase` neither; an
unrecognized type is a warning only ("treating as generic"). -/
def vTypeReq (config : VCConfig) (r : VResult) : VResult :=
  if vStackType config = "generic" then
    let ra := match truthyS config.image with
      | none => addError r "image" "Docker image is required for generic stacks"
      | some _ => r
    match truthyI config.port with
    | none => addError ra "port" "Container port is required for generic stacks"
    | some _ => ra
  else if vStackType config = "pocketbase" then r
  else addWarning r ("Unknown stack type '" ++ vStackType config ++ "', treating as generic")

/-- Rule 4: a supplied port must lie in 1–65535. -/
def vPortRange (config : VCConfig) (r : VResult) : VResult :=
  match truthyI config.port with
  | none => r
  | some p =>
    if p < 1 ∨ p > 65535 then
      addError r "port"
        ("Port number must be between 1 and 65535 (got " ++ toString p ++ ")")
    else r

/-- Rule 5: a supplied domain must match the subdomain/TLD pattern. -/
def vDomainFormat (config : VCConfig) (r : VResult) : VResult :=
  match truthyS config.domain with
  | none => r
  | some d =>
    if ¬ isDomainFormat d then
      addError r "domain" ("Invalid domain format: " ++ d)
        (some "Use format like: example.com or sub.example.com")
    else r

/-- Rule 6a: the stack directory must not already exist. -/
def vcExists (env : ValidateEnv) (name : String) (r : VResult) : VResult :=
  if env.dirs.contains name then
    addError r "name" ("Stack '" ++ name ++ "' already exists")
      (some "Choose a different name or remove the existing stack first")
  else r

/-- Rule 6b: the supplied (or default `<name>.rbnk.uk`) domain must not be
in use by another stack. -/
def vcDomain (env : ValidateEnv) (config : VCConfig) (name : String) (r : VResult) :
    VResult :=
  match truthyS config.domain with
  | some domain =>
    if checkDomainConflict env.stackList domain name then
      let rx := addError r "domain"
        ("Domain '" ++ domain ++ "' is already in use by another stack")
      { rx with domainConflicts := rx.domainConflicts ++ [domain] }
    else r
  | none =>
    let defaultDomain := name ++ ".rbnk.uk"
    if checkDomainConflict env.stackList defaultDomain name then
      let rx := addError r "domain"
        ("Default domain '" ++ defaultDomain ++ "' is already in use")
        (some "Specify a custom domain with the 'domain' parameter")
      { rx with domainConflicts := rx.domainConflicts ++ [defaultDomain] }
    else r

/-- Rule 6c: for generic stacks with a port, the port must not collide with
a running stack. -/
def vcPort (env : ValidateEnv) (config : VCConfig) (name : String) (r : VResult) :
    VResult :=
  if vStackType config = "generic" then
    match truthyI config.port with
    | some p =>
      (match checkPortConflict env.stackList p name with
       | some conflictName =>
         let rx := addError r "port"
           ("Port " ++ toString p ++ " is already in use by stack '" ++
             conflictName ++ "'")
           (some "Choose a different port or stop the conflicting service")
         { rx with portConflicts := rx.portConflicts ++ [p] }
       | none => r)
    | none => r
  else r

/-- Rule 6: conflicts, only when requested, a name was given and no error
has been recorded so far. -/
def vConflicts (env : ValidateEnv) (config : VCConfig) (checkConflicts : Bool)
    (r : VResult) : VResult :=
  if checkConflicts && (truthyS config.name).isSome && r.errors.isEmpty then
    match truthyS config.name with
    | none => r
    | some name => vcPort env config name (vcDomain env config name (vcExists env name r))
  else r

/-- Best-practice port warnings (privileged and well-known ports). -/
def vwPort (config : VCConfig) (r : VResult) : VResult :=
  match truthyI config.port with
  | some p =>
    let w1 :=
      if p < 1024 then
        addWarning r ("Port " ++ toString p ++
          " is a privileged port. Consider using a port above 1024")
      else r
    if [(80 : Int), 443, 22, 21, 25, 3306, 5432, 6379, 27017].contains p then
      addWarning w1 ("Port " ++ toString p ++
        " is commonly used by system services. Make sure it's not already in use")
    else w1
  | none => r

/-- Best-practice image-tag warning. -/
def vwImage (config : VCConfig) (r : VResult) : VResult :=
  match truthyS config.image with
  | some im =>
    if ¬ strContains im ":" then
      addWarning r ("Docker image '" ++ im ++
        "' doesn't specify a tag. Consider using a specific version tag instead of 'latest'")
    else r
  | none => r

/-- Best-practice warnings, added only when the result is still valid. -/
def vWarnings (config : VCConfig) (r : VResult) : VResult :=
  if r.valid then vwImage config (vwPort config r) else r

/-- `validate_stack_config` — the conflict-checking implementation
registered by `ValidateStackConfigTool`, its rules composed in source
order. -/
def validate_stack_config (env : ValidateEnv) (config : VCConfig)
    (checkConflicts : Bool := true) : VResult :=
  vWarnings config
    (vConflicts env config checkConflicts
      (vDomainFormat config
        (vPortRange config
          (vTypeReq config
            (vNameFormat config
              (vRequired config { valid := true }))))))

end Stackwiz

namespace Stackwiz

/-- One validation stage extends another result: errors are preserved and
invalidity is preserved (no rule ever removes an error or resets `valid`). -/
def VExtends (r r' : VResult) : Prop :=
  (∀ e ∈ r.errors, e ∈ r'.errors) ∧ (r.valid = false → r'.valid = false)

lemma vextends_refl (r : VResult) : VExtends r r :=
  ⟨fun _ he => he, fun h => h⟩

lemma vextends_trans {r r' r'' : VResult} (h1 : VExtends r r') (h2 : VExtends r' r'') :
    VExtends r r'' :=
  ⟨fun e he => h2.1 e (h1.1 e he), fun h => h2.2 (h1.2 h)⟩

lemma vx_ae (r : VResult) (f m : String) (s : Option String) :
    VExtends r (addError r f m s) :=
  ⟨fun e he => by simp only [addError, List.mem_append]; exact Or.inl he, fun _ => rfl⟩

lemma vx_aw (r : VResult) (m : String) : VExtends r (addWarning r m) :=
  ⟨fun _ he => he, fun hv => hv⟩

lemma vx_dc (r : VResult) (x : List String) :
    VExtends r { r with domainConflicts := x } :=
  ⟨fun _ he => he, fun hv => hv⟩

lemma vx_pc (r : VResult) (x : List Int) :
    VExtends r { r with portConflicts := x } :=
  ⟨fun _ he => he, fun hv => hv⟩

lemma vextends_vRequired (config : VCConfig) (r : VResult) :
    VExtends r (vRequired config r) := by
  unfold vRequired
  cases truthyS config.name
  · exact vx_ae r _ _ _
  · exact vextends_refl r

lemma vextends_vNameLen (name : String) (r : VResult) : VExtends r (vNameLen name r) := by
  unfold vNameLen
  split_ifs
  · exact vx_ae r _ _ _
  · exact vx_ae r _ _ _
  · exact vextends_refl r

lemma vextends_vNameCharset (name : String) (r : VResult) :
    VExtends r (vNameCharset name r) := by
  unfold vNameCharset
  split_ifs
  · exact vextends_refl r
  · exact vx_ae r _ _ _

lemma vextends_vNameHyphen (name : String) (r : VResult) :
    VExtends r (vNameHyphen name r) := by
  unfold vNameHyphen
  split_ifs
  · exact vx_ae r _ _ _
  · exact vextends_refl r

lemma vextends_vNameFormat (config : VCConfig) (r : VResult) :
    VExtends r (vNameFormat config r) := by
  unfold vNameFormat
  cases truthyS config.name with
  | none => exact vextends_refl r
  | some name =>
    exact vextends_trans (vextends_vNameLen name r)
      (vextends_trans (vextends_vNameCharset name _) (vextends_vNameHyphen name _))

lemma vextends_vTypeReq (config : VCConfig) (r : VResult) :
    VExtends r (vTypeReq config r) := by
  unfold vTypeReq
  split_ifs
  · cases truthyS config.image with
    | none =>
      cases truthyI config.port with
      | none => exact vextends_trans (vx_ae r _ _ _) (vx_ae _ _ _ _)
      | some p => exact vx_ae r _ _ _
    | some im =>
      cases truthyI config.port with
      | none => exact vx_ae r _ _ _
      | some p => exact vextends_refl r
  · exact vextends_refl r
  · exact vx_aw r _

lemma vextends_vPortRange (config : VCConfig) (r : VResult) :
    VExtends r (vPortRange config r) := by
  unfold vPortRange
  cases truthyI config.port with
  | none => exact vextends_refl r
  | some p =>
    dsimp only
    split_ifs
    · exact vx_ae r _ _ _
    · exact vextends_refl r

lemma vextends_vDomainFormat (config : VCConfig) (r : VResult) :
    VExtends r (vDomainFormat config r) := by
  unfold vDomainFormat
  cases truthyS config.domain with
  | none => exact vextends_refl r
  | some d =>
    dsimp only
    split_ifs
    · exact vextends_refl r
    · exact vx_ae r _ _ _

lemma vextends_vcExists (env : ValidateEnv) (name : String) (r : VResult) :
    VExtends r (vcExists env name r) := by
  unfold vcExists
  split_ifs
  · exact vx_ae r _ _ _
  · exact vextends_refl r

lemma vextends_vcDomain (env : ValidateEnv) (config : VCConfig) (name : String)
    (r : VResult) : VExtends r (vcDomain env config name r) := by
  unfold vcDomain
  cases truthyS config.domain with
  | none =>
    dsimp only
    split_ifs
    · exact vextends_trans (vx_ae r _ _ _) (vx_dc _ _)
    · exact vextends_refl r
  | some domain =>
    dsimp only
    split_ifs
    · exact vextends_trans (vx_ae r _ _ _) (vx_dc _ _)
    · exact vextends_refl r

lemma vextends_vcPort (env : ValidateEnv) (config : VCConfig) (name : String)
    (r : VResult) : VExtends r (vcPort env config name r) := by
  unfold vcPort
  split_ifs
  · cases truthyI config.port with
    | none => exact vextends_refl r
    | some p =>
      dsimp only
      cases checkPortConflict env.stackList p name with
      | none => exact vextends_refl r
      | some conflictName => exact vextends_trans (vx_ae r _ _ _) (vx_pc _ _)
  · exact vextends_refl r

lemma vextends_vConflicts (env : ValidateEnv) (config : VCConfig) (cc : Bool)
    (r : VResult) : VExtends r (vConflicts env config cc r) := by
  unfold vConflicts
  split_ifs
  · cases truthyS config.name with
    | none => exact vextends_refl r
    | some name =>
      exact vextends_trans (vextends_vcExists env name r)
        (vextends_trans (vextends_vcDomain env config name _)
          (vextends_vcPort env config name _))
  · exact vextends_refl r

lemma vextends_vwPort (config : VCConfig) (r : VResult) : VExtends r (vwPort config r) := by
  unfold vwPort
  cases truthyI config.port with
  | none => exact vextends_refl r
  | some p =>
    dsimp only
    split_ifs
    · exact vextends_trans (vx_aw r _) (vx_aw _ _)
    · exact vx_aw r _
    · exact vx_aw r _
    · exact vextends_refl r

lemma vextends_vwImage (config : VCConfig) (r : VResult) :
    VExtends r (vwImage config r) := by
  unfold vwImage
  cases truthyS config.image with
  | none => exact vextends_refl r
  | some im =>
    dsimp only
    split_ifs
    · exact vextends_refl r
    · exact vx_aw r _

lemma vextends_vWarnings (config : VCConfig) (r : VResult) :
    VExtends r (vWarnings config r) := by
  unfold vWarnings
  split_ifs
  · exact vextends_trans (vextends_vwPort config r) (vextends_vwImage config _)
  · exact vextends_refl r

/-- Everything after the name-format rule extends its result. -/
lemma vextends_after_name (env : ValidateEnv) (config : VCConfig) (cc : Bool)
    (r : VResult) :
    VExtends r (vWarnings config
      (vConflicts env config cc (vDomainFormat config (vPortRange config
        (vTypeReq config r))))) :=
  vextends_trans (vextends_vTypeReq config r)
    (vextends_trans (vextends_vPortRange config _)
      (vextends_trans (vextends_vDomainFormat config _)
        (vextends_trans (vextends_vConflicts env config cc _)
          (vextends_vWarnings config _))))

lemma mem_addError_self (r : VResult) (f m : String) (s : Option String) :
    (⟨f, m, s⟩ : VError) ∈ (addError r f m s).errors := by
  simp [addError]

end Stackwiz

namespace Stackwiz

/-- C5: `validate_stack_config` on a config whose (truthy) name is shorter
than 3 characters produces that error and `valid = false`; on a name
violating the `[a-z0-9-]` charset it produces an error whose suggestion is
the slugified form (presented as `Try: <slug>`); on a domain not matching
the subdomain/TLD pattern it produces the domain-format error; and an
unrecognized stack type produces only the "treating as generic" warning,
never an error — in a conflict-free environment a well-formed name with an
unknown type yields `valid = true`, no errors, and exactly that warning. -/
theorem c5_validate_stack_config :
    (∀ (env : ValidateEnv) (config : VCConfig) (cc : Bool) (n : String),
      truthyS config.name = some n → n.length < 3 →
      (validate_stack_config env config cc).valid = false ∧
        (⟨"name", "Stack name must be at least 3 characters long", none⟩ : VError) ∈
          (validate_stack_config env config cc).errors) ∧
    (∀ (env : ValidateEnv) (config : VCConfig) (cc : Bool) (n : String),
      truthyS config.name = some n → nameFormatOk n = false →
      (validate_stack_config env config cc).valid = false ∧
        (⟨"name", "Stack name must contain only lowercase letters, numbers, and hyphens",
          some ("Try: " ++ slugify n)⟩ : VError) ∈
          (validate_stack_config env config cc).errors) ∧
    (∀ (env : ValidateEnv) (config : VCConfig) (cc : Bool) (d : String),
      truthyS config.domain = some d → isDomainFormat d = false →
      (validate_stack_config env config cc).valid = false ∧
        (⟨"domain", "Invalid domain format: " ++ d,
          some "Use format like: example.com or sub.example.com"⟩ : VError) ∈
          (validate_stack_config env config cc).errors) ∧
    (∀ (env : ValidateEnv) (n t : String),
      n ≠ "" → ¬ n.length < 3 → ¬ n.length > 50 → nameFormatOk n = true →
      listPre ['-'] n.data = false → listPre ['-'] n.data.reverse = false →
      toLowerStr t ≠ "generic" → toLowerStr t ≠ "pocketbase" →
      env.dirs.contains n = false →
      checkDomainConflict env.stackList (n ++ ".rbnk.uk") n = false →
      validate_stack_config env { name := some n, type := some t } true =
        { valid := true, errors := [],
          warnings := ["Unknown stack type '" ++ toLowerStr t ++ "', treating as generic"],
          portConflicts := [], domainConflicts := [] }) := by
  refine ⟨?_, ?_, ?_, ?_⟩
  · intro env config cc n hn hlen
    unfold validate_stack_config
    have h2 : vNameFormat config (vRequired config { valid := true }) =
        vNameHyphen n (vNameCharset n (vNameLen n (vRequired config { valid := true }))) := by
      unfold vNameFormat
      rw [hn]
    rw [h2]
    have hbase : (vNameLen n (vRequired config { valid := true })).valid = false ∧
        (⟨"name", "Stack name must be at least 3 characters long", none⟩ : VError) ∈
          (vNameLen n (vRequired config { valid := true })).errors := by
      unfold vNameLen
      rw [if_pos hlen]
      exact ⟨rfl, mem_addError_self _ _ _ _⟩
    have hx : VExtends (vNameLen n (vRequired config { valid := true }))
        (vWarnings config (vConflicts env config cc (vDomainFormat config (vPortRange config
          (vTypeReq config (vNameHyphen n (vNameCharset n
            (vNameLen n (vRequired config { valid := true }))))))))) :=
      vextends_trans (vextends_vNameCharset n _)
        (vextends_trans (vextends_vNameHyphen n _) (vextends_after_name env config cc _))
    exact ⟨hx.2 hbase.1, hx.1 _ hbase.2⟩
  · intro env config cc n hn hfmt
    unfold validate_stack_config
    have h2 : vNameFormat config (vRequired config { valid := true }) =
        vNameHyphen n (vNameCharset n (vNameLen n (vRequired config { valid := true }))) := by
      unfold vNameFormat
      rw [hn]
    rw [h2]
    have hbase : (vNameCharset n (vNameLen n (vRequired config { valid := true }))).valid =
        false ∧
        (⟨"name", "Stack name must contain only lowercase letters, numbers, and hyphens",
          some ("Try: " ++ slugify n)⟩ : VError) ∈
          (vNameCharset n (vNameLen n (vRequired config { valid := true }))).errors := by
      unfold vNameCharset
      rw [if_pos (by simp [hfmt])]
      exact ⟨rfl, mem_addError_self _ _ _ _⟩
    have hx : VExtends (vNameCharset n (vNameLen n (vRequired config { valid := true })))
        (vWarnings config (vConflicts env config cc (vDomainFormat config (vPortRange config
          (vTypeReq config (vNameHyphen n (vNameCharset n
            (vNameLen n (vRequired config { valid := true }))))))))) :=
      vextends_trans (vextends_vNameHyphen n _) (vextends_after_name env config cc _)
    exact ⟨hx.2 hbase.1, hx.1 _ hbase.2⟩
  · intro env config cc d hd hfmt
    unfold validate_stack_config
    have hbase : (vDomainFormat config (vPortRange config (vTypeReq config
        (vNameFormat config (vRequired config { valid := true }))))).valid = false ∧
        (⟨"domain", "Invalid domain format: " ++ d,
          some "Use format like: example.com or sub.example.com"⟩ : VError) ∈
          (vDomainFormat config (vPortRange config (vTypeReq config
            (vNameFormat config (vRequired config { valid := true }))))).errors := by
      unfold vDomainFormat
      rw [hd]
      dsimp only
      rw [if_pos (by simp [hfmt])]
      exact ⟨rfl, mem_addError_self _ _ _ _⟩
    have hx : VExtends
        (vDomainFormat config (vPortRange config (vTypeReq config
          (vNameFormat config (vRequired config { valid := true })))))
        (vWarnings config (vConflicts env config cc (vDomainFormat config (vPortRange config
          (vTypeReq config (vNameFormat config (vRequired config { valid := true }))))))) :=
      vextends_trans (vextends_vConflicts env config cc _) (vextends_vWarnings config _)
    exact ⟨hx.2 hbase.1, hx.1 _ hbase.2⟩
  · intro env n t hne h3 h50 hfmt hlead htrail hg hp hdirs hdc
    have hname : truthyS (some n) = some n := by simp [truthyS, hne]
    have hst : vStackType { name := some n, type := some t } = toLowerStr t := rfl
    unfold validate_stack_config
    have e1 : vRequired { name := some n, type := some t } { valid := true } =
        { valid := true } := by
      unfold vRequired
      show (match truthyS (some n) with
        | none => addError { valid := true } "name" "Stack name is required"
        | some _ => { valid := true }) = _
      rw [hname]
    rw [e1]
    have e2 : vNameFormat { name := some n, type := some t } { valid := true } =
        { valid := true } := by
      unfold vNameFormat
      show (match truthyS (some n) with
        | none => ({ valid := true } : VResult)
        | some name => vNameHyphen name (vNameCharset name (vNameLen name { valid := true }))) = _
      rw [hname]
      dsimp only
      unfold vNameLen vNameCharset vNameHyphen
      rw [if_neg h3, if_neg h50,
        if_neg (show ¬ ¬ nameFormatOk n = true from fun h => h hfmt),
        if_neg (show ¬ (listPre ['-'] n.data || listPre ['-'] n.data.reverse) = true by
          rw [hlead, htrail]; simp)]
    rw [e2]
    have e3 : vTypeReq { name := some n, type := some t } { valid := true } =
        addWarning { valid := true }
          ("Unknown stack type '" ++ toLowerStr t ++ "', treating as generic") := by
      unfold vTypeReq
      rw [hst, if_neg hg, if_neg hp]
    rw [e3]
    set rW : VResult := addWarning { valid := true }
      ("Unknown stack type '" ++ toLowerStr t ++ "', treating as generic") with hrW
    have hrWval : rW =
        { valid := true, errors := [],
          warnings := ["Unknown stack type '" ++ toLowerStr t ++ "', treating as generic"],
          portConflicts := [], domainConflicts := [] } := by
      rw [hrW]
      simp [addWarning]
    have e4 : vPortRange { name := some n, type := some t } rW = rW := rfl
    rw [e4]
    have e5 : vDomainFormat { name := some n, type := some t } rW = rW := rfl
    rw [e5]
    have hdirsn : ¬ env.dirs.contains n = true :=
      fun h => absurd (hdirs.symm.trans h) (by decide)
    have hdcn : ¬ checkDomainConflict env.stackList (n ++ ".rbnk.uk") n = true :=
      fun h => absurd (hdc.symm.trans h) (by decide)
    have e6 : vConflicts env { name := some n, type := some t } true rW = rW := by
      unfold vConflicts vcExists vcDomain vcPort
      rw [hrWval]
      dsimp only
      rw [hname]
      dsimp only
      rw [if_neg hdirsn]
      rw [hrWval.symm, hrW]
      dsimp only [truthyS]
      rw [if_neg hdcn, hst, if_neg hg]
      rw [ite_self]
    rw [e6]
    have e7 : vWarnings { name := some n, type := some t } rW = rW := by
      unfold vWarnings
      rw [hrWval]
      rfl
    rw [e7]
    exact hrWval

end Stackwiz

namespace Stackwiz

/-- Witness for C5: `{"name": "AB"}` fails validation, and a well-formed
name with the unknown type `"Weird"` yields exactly the treating-as-generic
warning with `valid = true`. -/
theorem c5_validate_stack_config_witness :
    (validate_stack_config {} { name := some "AB" } true).valid = false ∧
    validate_stack_config {} { name := some "abc", type := some "Weird" } true =
      { valid := true, errors := [],
        warnings := ["Unknown stack type 'weird', treating as generic"],
        portConflicts := [], domainConflicts := [] } :=
  ⟨(c5_validate_stack_config.1 {} { name := some "AB" } true "AB" (by decide) (by decide)).1,
   (c5_validate_stack_config.2.2.2 {} "abc" "Weird" (by decide) (by decide) (by decide)
     (by decide) (by decide) (by decide) (by decide) (by decide) (by decide)
     (by decide)).trans (by decide)⟩

end Stackwiz

namespace Stackwiz

/-! ## `create_stack` (src/stackwiz_mcp/server.py, lines 459–706) with
`StackConfig` validation (src/stackwiz_mcp/models/stack_models.py, lines
46–120)

The filesystem and subprocess effects are recorded: paths are segment lists
relative to the base directory, the unconditional `/tmp` execution-marker
file is its own constructor, and invoked external commands (the DNS script,
`compose up -d`) are returned separately.  `fix_permissions` changes only
ownership/mode metadata and is not recorded.  Pydantic's `ValidationError`
text (and the text of an `OSError` from a missing pocketbase template) is
not reproduced; both reach the blanket `except` handler and are modelled by
the `exc` result. -/

/-- Python `str.isalnum` restricted to ASCII (letters and digits). -/
def pyIsAlnum (c : Char) : Bool :=
  (48 ≤ c.toNat && c.toNat ≤ 57) || (65 ≤ c.toNat && c.toNat ≤ 90) ||
    (97 ≤ c.toNat && c.toNat ≤ 122)

/-- The arguments of the `create_stack` tool. -/
structure CreateParams where
  name : String
  type : String := "generic"
  image : Option String := none
  port : Option Int := none
  domain : Option String := none
  createDns : Bool := false
  autoStart : Bool := false
  environment : List (String × String) := []

/-- `if not <str>`: an absent or empty string is falsy. -/
def truthyStr : Option String → Bool
  | none => false
  | some s => ¬ s = ""

/-- `if not <int>`: an absent or zero value is falsy. -/
def truthyInt : Option Int → Bool
  | none => false
  | some p => ¬ p = 0

/-- The `Field(pattern="^[a-z0-9-]+$")` constraint on `StackConfig.name`. -/
def namePatternOk (s : String) : Bool :=
  ¬ s.data = [] && s.data.all goodChar

/-- The `validate_name` field validator: length 3–50 and
`name.replace("-", "").isalnum()`. -/
def nameValidatorOk (s : String) : Bool :=
  ¬ s.length < 3 && ¬ s.length > 50 &&
    (let r := s.data.filter (fun c => ¬ c == '-')
     ¬ r = [] && r.all pyIsAlnum)

/-- The `StackType` enum coercion: only `generic` and `pocketbase` parse. -/
def typeOk (t : String) : Bool :=
  t == "generic" || t == "pocketbase"

/-- The `validate_domain` field validator:
`if v and not v.replace("-", "").replace(".", "").isalnum(): raise`. -/
def domainOk : Option String → Bool
  | none => true
  | some d =>
    if d = "" then true
    else
      let r := d.data.filter (fun c => ¬ c == '-' && ¬ c == '.')
      ¬ r = [] && r.all pyIsAlnum

/-- The `Field(ge=1, le=65535)` constraint on `StackConfig.port`. -/
def portFieldOk : Option Int → Bool
  | none => true
  | some p => 1 ≤ p && p ≤ 65535

/-- Whether `StackConfig(...)` construction succeeds for the tool's
arguments: the field constraints, the field validators, and the
`validate_generic_requirements` model validator (generic needs a truthy
image and port). -/
def stackConfigOk (p : CreateParams) : Bool :=
  namePatternOk p.name && nameValidatorOk p.name && typeOk p.type &&
    domainOk p.domain && portFieldOk p.port &&
    (!(p.type == "generic") || (truthyStr p.image && truthyInt p.port))

/-- A recorded filesystem write.  Paths are segment lists relative to the
stacks base directory. -/
inductive FsWrite where
  | tmpMarker (name : String)
  | mkdir (path : List String)
  | writeFile (path : List String)
  | appendFile (path : List String)
  | copyFile (src dest : List String)
deriving DecidableEq

/-- The tool's return value: a caught exception (`{"success": False,
"error": str(e)}` with unmodelled text), an explicit failure dictionary, or
the success payload. -/
inductive CreateResult where
  | exc
  | failure (error : String)
  | ok (stackName stackType domain status : String) (dnsCreated autoStarted : Bool)
deriving DecidableEq

/-- Result, recorded filesystem writes, and invoked external commands. -/
structure CreateOut where
  result : CreateResult
  writes : List FsWrite
  commands : List (List String)
deriving DecidableEq

/-- The filesystem/template/subprocess environment `create_stack` acts on. -/
structure CreateEnv where
  dirs : List String := []
  pbEnvTemplate : Option String := none
  readmeExists : Bool := false
  dnsScriptExists : Bool := false
  dnsRunOk : Bool := false
  composeUpOk : Bool := false

/-- `domain.replace(".rbnk.uk", "")`: drop every occurrence of the suffix
string. -/
def removeRbnk : List Char → List Char
  | [] => []
  | c :: t =>
    if listPre ".rbnk.uk".data (c :: t) then removeRbnk (t.drop 7)
    else c :: removeRbnk t
termination_by l => l.length
decreasing_by
  all_goals simp only [List.length_drop, List.length_cons]
  all_goals omega

/-- `create_stack`: validate the `StackConfig`, slugify, check existence,
create the directory tree, render/write the per-type files, then run the
optional DNS-creation script and `compose up -d` (whose failures do not
fail the operation). -/
def create_stack (env : CreateEnv) (p : CreateParams) : CreateOut :=
  let marker := [FsWrite.tmpMarker p.name]
  if ¬ stackConfigOk p then
    { result := .exc, writes := marker, commands := [] }
  else if p.type == "generic" && !(truthyStr p.image) then
    -- unreachable after the model validator; kept from lines 509–511
    { result := .failure "Image is required for generic stack type",
      writes := marker, commands := [] }
  else if p.type == "generic" && !(truthyInt p.port) then
    -- unreachable after the model validator; kept from lines 512–513
    { result := .failure "Port is required for generic stack type",
      writes := marker, commands := [] }
  else
    let slug := slugify p.name
    if env.dirs.contains slug then
      { result := .failure ("Stack '" ++ slug ++ "' already exists"),
        writes := marker, commands := [] }
    else
      let baseDirs := [FsWrite.mkdir [slug], FsWrite.mkdir [slug, "data"],
        FsWrite.mkdir [slug, "config"]]
      let pbDirs :=
        if p.type == "pocketbase" then
          [FsWrite.mkdir [slug, "pb_data"], FsWrite.mkdir [slug, "pb_public"],
           FsWrite.mkdir [slug, "pb_migrations"], FsWrite.mkdir [slug, "pb_hooks"]]
        else []
      let domain := match p.domain with
        | some d => if d = "" then slug ++ ".rbnk.uk" else d
        | none => slug ++ ".rbnk.uk"
      let finish : List FsWrite → CreateOut := fun fileWrites =>
        let subdomain :=
          if listPre ".rbnk.uk".data.reverse domain.data.reverse then
            (⟨removeRbnk domain.data⟩ : String)
          else slug
        let dnsCmds :=
          if p.createDns && env.dnsScriptExists then
            [["/srv/dockerdata/_scripts/cloudflare-dns-create.sh", subdomain]]
          else []
        let dnsCreated := p.createDns && env.dnsScriptExists && env.dnsRunOk
        let upCmds := if p.autoStart then [["up", "-d"]] else []
        let started := p.autoStart && env.composeUpOk
        { result := .ok slug p.type domain (if started then "running" else "created")
            dnsCreated started,
          writes := marker ++ baseDirs ++ pbDirs ++ fileWrites,
          commands := dnsCmds ++ upCmds }
      if p.type == "generic" then
        finish ([FsWrite.writeFile [slug, ".env"],
          FsWrite.writeFile [slug, "docker-compose.yml"]] ++
          (if ¬ p.environment = [] then [FsWrite.appendFile [slug, ".env"]] else []))
      else if p.type == "pocketbase" then
        match env.pbEnvTemplate with
        | none =>
          -- `open(pocketbase-env-template)` raised after the directories
          -- were already created: no rollback
          { result := .exc, writes := marker ++ baseDirs ++ pbDirs, commands := [] }
        | some _ =>
          finish ([FsWrite.writeFile [slug, ".env"],
            FsWrite.writeFile [slug, "docker-compose.yml"]] ++
            (if env.readmeExists then
              [FsWrite.copyFile ["_templates", "README-pocketbase.md"] [slug, "README.md"]]
            else []))
      else
        -- unreachable: the StackType coercion already rejected other types
        { result := .failure ("Unknown stack type: " ++ p.type),
          writes := marker ++ baseDirs ++ pbDirs, commands := [] }

end Stackwiz

namespace Stackwiz

/-- C1 counterexample: `create_stack` with the name `"My App"` (uppercase
letters and a space) is **not** silently slugified — `StackConfig`
construction fails on the `^[a-z0-9-]+$` pattern, the call returns a
failure, and no directory for the slug `"my-app"` is ever created. -/
theorem c1_create_stack_counterexample :
    (create_stack {} { name := "My App", image := some "nginx:1.25", port := some 8080 }).result =
      CreateResult.exc ∧
    FsWrite.mkdir ["my-app"] ∉
      (create_stack {} { name := "My App", image := some "nginx:1.25", port := some 8080 }).writes ∧
    slugify "My App" = "my-app" := by
  exact ⟨by decide, by decide, by decide⟩

/-- C1 (amended): a `create_stack` name containing an uppercase letter or a
space fails `StackConfig` construction, so the call returns a failure having
written nothing but the unconditional `/tmp` execution-marker file; only
names that already pass construction are slugified, before the existence
check; creation against an existing slug fails with the "already exists"
error, again with no write beyond the marker; and when the slug is free the
operation proceeds with it, creating the slug's directory. -/
theorem c1_create_stack_amended :
    (∀ (p : CreateParams) (c : Char), c ∈ p.name.data →
      ((65 ≤ c.toNat ∧ c.toNat ≤ 90) ∨ c = ' ') → stackConfigOk p = false) ∧
    (∀ (env : CreateEnv) (p : CreateParams), stackConfigOk p = false →
      create_stack env p =
        { result := .exc, writes := [.tmpMarker p.name], commands := [] }) ∧
    (∀ (env : CreateEnv) (p : CreateParams), stackConfigOk p = true →
      env.dirs.contains (slugify p.name) = true →
      create_stack env p =
        { result := .failure ("Stack '" ++ slugify p.name ++ "' already exists"),
          writes := [.tmpMarker p.name], commands := [] }) ∧
    (∀ (env : CreateEnv) (p : CreateParams), stackConfigOk p = true →
      env.dirs.contains (slugify p.name) = false →
      FsWrite.mkdir [slugify p.name] ∈ (create_stack env p).writes) := by
  have deadIfs : ∀ (p : CreateParams), stackConfigOk p = true →
      (p.type == "generic" && !(truthyStr p.image)) = false ∧
      (p.type == "generic" && !(truthyInt p.port)) = false := by
    intro p hok
    simp only [stackConfigOk, Bool.and_eq_true] at hok
    obtain ⟨⟨⟨⟨⟨hpat, hval⟩, hty⟩, hdom⟩, hpf⟩, hgen⟩ := hok
    cases hg : p.type == "generic"
    · simp
    · rw [hg] at hgen
      simp only [Bool.not_true, Bool.false_or, Bool.and_eq_true] at hgen
      simp [hgen.1, hgen.2]
  refine ⟨?_, ?_, ?_, ?_⟩
  · intro p c hc hcase
    have hv : (65 ≤ c.toNat ∧ c.toNat ≤ 90) ∨ c.toNat = 32 := by
      rcases hcase with h | rfl
      · exact Or.inl h
      · exact Or.inr rfl
    have hd : c ≠ '-' := by
      intro h
      subst h
      rcases hv with ⟨h1, _⟩ | h1 <;> revert h1 <;> decide
    have hgc : goodChar c = false := by
      simp only [goodChar, isAllowed, Bool.or_eq_false_iff, Bool.and_eq_false_iff,
        decide_eq_false_iff_not, not_le, beq_eq_false_iff_ne, ne_eq]
      refine ⟨⟨?_, ?_⟩, hd⟩ <;> omega
    have hall : p.name.data.all goodChar = false := by
      rw [Bool.eq_false_iff]
      intro hT
      rw [List.all_eq_true] at hT
      rw [hT c hc] at hgc
      exact Bool.noConfusion hgc
    simp [stackConfigOk, namePatternOk, hall]
  · intro env p hbad
    simp only [create_stack]
    rw [if_pos (by simp [hbad])]
  · intro env p hok hcont
    obtain ⟨h1, h2⟩ := deadIfs p hok
    simp only [create_stack]
    rw [if_neg (fun h => h hok), if_neg (by simp [h1]), if_neg (by simp [h2]),
      if_pos hcont]
  · intro env p hok hcont
    obtain ⟨h1, h2⟩ := deadIfs p hok
    have hty : (p.type == "generic") = true ∨ (p.type == "pocketbase") = true := by
      simp only [stackConfigOk, Bool.and_eq_true] at hok
      have := hok.1.1.1.2
      simp only [typeOk, Bool.or_eq_true] at this
      exact this
    simp only [create_stack]
    rw [if_neg (fun h => h hok), if_neg (by simp [h1]), if_neg (by simp [h2]),
      if_neg (fun h => Bool.noConfusion (hcont.symm.trans h))]
    dsimp only
    rcases hty with hg | hpb
    · rw [if_pos hg]
      simp
    · have hpb' : p.type = "pocketbase" := by
        rwa [beq_iff_eq] at hpb
      rw [hpb']
      rw [if_neg (by decide), if_pos (by decide : ("pocketbase" == "pocketbase") = true)]
      cases env.pbEnvTemplate
      · simp
      · simp

/-- Witness for C1: creating against an already-existing slug fails with the
"already exists" error, writing nothing beyond the `/tmp` marker. -/
theorem c1_create_stack_amended_witness :
    create_stack { dirs := ["my-app"] }
        { name := "my-app", image := some "nginx:1.25", port := some 8080 } =
      { result := .failure "Stack 'my-app' already exists",
        writes := [.tmpMarker "my-app"], commands := [] } :=
  (c1_create_stack_amended.2.2.1 { dirs := ["my-app"] }
    { name := "my-app", image := some "nginx:1.25", port := some 8080 }
    (by decide) (by decide)).trans (by decide)

end Stackwiz
